import Mathlib

/-!
Verification of the ESPA product formatter scene-based DEM script
(`do_create_dem.py`) together with its logging helper (`espa_logging.py`)
and constants module (`espa_constants.py`).

The Python source is shallowly embedded below:
  * Python floats are modelled as rationals (`ℚ`); the numeric literals the
    script compares against (sentinels such as -9999.0, -13.0, 9999.0) are
    exactly representable, so the sentinel comparisons are faithful.
  * `float(value)` / `int(value)` are modelled by `pyFloat` / `pyInt`,
    decimal-literal parsers raising `ValueError` on malformed text.
  * Raised exceptions are modelled with `Except PyExc`.
  * Python attribute semantics: reads on `self` consult the per-instance
    dictionary first and fall back to the class attributes; writes on `self`
    always go to the instance dictionary.  `Inst` is the instance dictionary
    (one `Option` per field), `Fields` the class-attribute record, and
    `merge` is attribute lookup.
  * String manipulation is defined on the character list underlying the
    string, and rational arithmetic through `mkRat`, so every definition
    evaluates inside the kernel.
-/

/-- Exceptions that the modelled code can raise. -/
inductive PyExc where
  | valueError
  | typeError
  | osError
  | ioError
  deriving DecidableEq

instance {ε α : Type} [DecidableEq ε] [DecidableEq α] : DecidableEq (Except ε α) := fun a b =>
  match a, b with
  | .ok x, .ok y => if h : x = y then .isTrue (by rw [h]) else .isFalse (by simp [h])
  | .ok _, .error _ => .isFalse (by simp)
  | .error _, .ok _ => .isFalse (by simp)
  | .error e, .error f => if h : e = f then .isTrue (by rw [h]) else .isFalse (by simp [h])

/-- espa_constants.py: standard method return value SUCCESS = 0. -/
def SUCCESS : Int := 0

/-- espa_constants.py: standard method return value ERROR = -1. -/
def ERROR : Int := -1

/-- Rational addition expressed through `mkRat` (definitionally evaluable). -/
def qadd (a b : ℚ) : ℚ := mkRat (a.num * b.den + b.num * a.den) (a.den * b.den)

/-- Rational multiplication expressed through `mkRat`. -/
def qmul (a b : ℚ) : ℚ := mkRat (a.num * b.num) (a.den * b.den)

/-- Rational subtraction expressed through `mkRat`. -/
def qsub (a b : ℚ) : ℚ := qadd a (-b)

theorem qadd_eq (a b : ℚ) : qadd a b = a + b := by
  have ha : ((a.den : ℚ)) ≠ 0 := by
    exact_mod_cast a.den_nz
  have hb : ((b.den : ℚ)) ≠ 0 := by
    exact_mod_cast b.den_nz
  rw [qadd, Rat.mkRat_eq_div]
  push_cast
  conv_rhs => rw [← Rat.num_div_den a, ← Rat.num_div_den b]
  rw [div_add_div _ _ ha hb]
  ring_nf

theorem qmul_eq (a b : ℚ) : qmul a b = a * b := by
  have ha : ((a.den : ℚ)) ≠ 0 := by
    exact_mod_cast a.den_nz
  have hb : ((b.den : ℚ)) ≠ 0 := by
    exact_mod_cast b.den_nz
  rw [qmul, Rat.mkRat_eq_div]
  push_cast
  conv_rhs => rw [← Rat.num_div_den a, ← Rat.num_div_den b]
  rw [div_mul_div_comm]

theorem qsub_eq (a b : ℚ) : qsub a b = a - b := by
  rw [qsub, qadd_eq]
  ring

/-- Trim leading and trailing whitespace from a character list (Python
str.strip; the source first applies rstrip of CR and LF, which trim also
removes, so the composition is a plain trim). -/
def trimChars (l : List Char) : List Char :=
  ((l.dropWhile Char.isWhitespace).reverse.dropWhile Char.isWhitespace).reverse

/-- Python str.strip() on a string. -/
def pyStrip (s : String) : String :=
  String.mk (trimChars s.data)

/-- Natural number denoted by a nonempty list of decimal digit characters. -/
def parseDigits : List Char → Option ℕ
  | [] => none
  | l =>
    l.foldl (fun acc c =>
      match acc with
      | none => none
      | some n => if c.isDigit then some (n * 10 + (c.toNat - 48)) else none)
      (some 0)

/-- Split off an optional leading sign, returning (negative?, rest). -/
def splitSign : List Char → Bool × List Char
  | '-' :: l => (true, l)
  | '+' :: l => (false, l)
  | l => (false, l)

/-- Core of Python float(): decimal literal with optional sign and at most
one decimal point, valued as a rational.  (Exponent and inf/nan forms,
which the metadata files at hand do not use, are not modelled and count as
malformed.) -/
def pyFloatCore (l : List Char) : Option ℚ :=
  let (neg, rest) := splitSign l
  let intPart := rest.takeWhile (· ≠ '.')
  let dotFrac := rest.dropWhile (· ≠ '.')
  let signed : ℚ → Option ℚ := fun q => some (if neg then -q else q)
  match dotFrac with
  | [] =>
    match parseDigits intPart with
    | some n => signed (mkRat n 1)
    | none => none
  | '.' :: frac =>
    if frac = [] then
      -- "5." is accepted by float(); "." alone is not
      match parseDigits intPart with
      | some n => signed (mkRat n 1)
      | none => none
    else
      match parseDigits frac with
      | some f =>
        match intPart with
        | [] => signed (mkRat f (10 ^ frac.length))
        | _ =>
          match parseDigits intPart with
          | some n => signed (mkRat (n * 10 ^ frac.length + f) (10 ^ frac.length))
          | none => none
      | none => none
  | _ => none

/-- Python float(value): strips surrounding whitespace, raises ValueError on
malformed input. -/
def pyFloat (s : String) : Except PyExc ℚ :=
  match pyFloatCore (trimChars s.data) with
  | some q => .ok q
  | none => .error .valueError

/-- Python int(value): optional sign plus decimal digits, raises ValueError
otherwise. -/
def pyInt (s : String) : Except PyExc Int :=
  let (neg, rest) := splitSign (trimChars s.data)
  match parseDigits rest with
  | some n => .ok (if neg then -(n : Int) else (n : Int))
  | none => .error .valueError

/-- Python's value.strip of the double-quote character: drop every leading and
trailing double quote. -/
def stripQuotes (s : String) : String :=
  let l := s.data.dropWhile (· = '"')
  String.mk ((l.reverse.dropWhile (· = '"')).reverse)

/-- Break a character list at the first equals sign. -/
def breakEq : List Char → Option (List Char × List Char)
  | [] => none
  | c :: l =>
    if c = '=' then some ([], l)
    else
      match breakEq l with
      | none => none
      | some (a, b) => some (c :: a, b)

/-- Python's myline.split of the equals sign with maxsplit 1: the text before
the first equals sign and everything after it.  Returns none when the line
holds no equals sign, in which case the tuple unpacking in the source
raises a ValueError. -/
def splitEq1 (s : String) : Option (String × String) :=
  match breakEq s.data with
  | none => none
  | some (a, b) => some (String.mk a, String.mk b)

-- sanity examples mirroring Python behaviour
example : pyFloat "41.0" = .ok 41 := by decide
example : pyFloat "-122.5" = .ok (mkRat (-245) 2) := by decide
example : pyFloat "abc" = .error .valueError := by decide
example : pyInt "10" = .ok 10 := by decide
example : pyInt "-10" = .ok (-10) := by decide
example : stripQuotes "\"UTM\"" = "UTM" := by decide
example : splitEq1 "A = B = C" = some ("A ", " B = C") := by decide
example : splitEq1 "no equals here" = none := by decide
example : pyStrip "  WRS_PATH  " = "WRS_PATH" := by decide

/-! ## The SceneDEM record

`Fields` mirrors the class attributes of `SceneDEM` (do_create_dem.py,
lines 58-82); `classAttrs` holds the class-attribute values from the source.
`Inst` is the per-instance attribute dictionary: a fresh `SceneDEM()` has an
empty one.  `merge` is Python attribute lookup on `self`: the instance
dictionary shadows the class attribute. -/

structure Fields where
  west_bound_lon : ℚ
  east_bound_lon : ℚ
  north_bound_lat : ℚ
  south_bound_lat : ℚ
  ul_proj_x : ℚ
  ul_proj_y : ℚ
  pixsize : ℚ
  path : Int
  row : Int
  map_proj : String
  utm_zone : Int
  vert_lon_from_pole : ℚ
  true_scale_lat : ℚ
  false_east : ℚ
  false_north : ℚ
  retrieve_elev_odl : String
  makegeomgrid_odl : String
  geomresample_odl : String
  lsrd_omf : String
  source_dem : String
  scene_dem : String
  scene_dem_envi : String
  scene_dem_hdr : String
  geomgrid : String
  deriving DecidableEq

/-- The class-attribute values of SceneDEM. -/
def classAttrs : Fields where
  west_bound_lon := 9999
  east_bound_lon := -9999
  north_bound_lat := -9999
  south_bound_lat := 9999
  ul_proj_x := -13
  ul_proj_y := -13
  pixsize := -13
  path := 0
  row := 0
  map_proj := "None"
  utm_zone := 99
  vert_lon_from_pole := -9999
  true_scale_lat := -9999
  false_east := -9999
  false_north := -9999
  retrieve_elev_odl := "retrieve_elevation.odl"
  makegeomgrid_odl := "makegeomgrid.odl"
  geomresample_odl := "geomresample.odl"
  lsrd_omf := "LSRD.omf"
  source_dem := "lsrd_source_dem.h5"
  scene_dem := "lsrd_scene_based_dem.h5"
  scene_dem_envi := "lsrd_scene_based_dem.bin"
  scene_dem_hdr := "lsrd_scene_based_dem.hdr"
  geomgrid := "lsrd_geomgrid.h5"

/-- The per-instance attribute dictionary of one SceneDEM object.  A field
holding none has not been assigned on the instance, so attribute lookup
falls through to the class attribute. -/
structure Inst where
  west_bound_lon : Option ℚ := none
  east_bound_lon : Option ℚ := none
  north_bound_lat : Option ℚ := none
  south_bound_lat : Option ℚ := none
  ul_proj_x : Option ℚ := none
  ul_proj_y : Option ℚ := none
  pixsize : Option ℚ := none
  path : Option Int := none
  row : Option Int := none
  map_proj : Option String := none
  utm_zone : Option Int := none
  vert_lon_from_pole : Option ℚ := none
  true_scale_lat : Option ℚ := none
  false_east : Option ℚ := none
  false_north : Option ℚ := none
  deriving DecidableEq

/-- The empty instance dictionary of a freshly constructed SceneDEM(). -/
def freshInst : Inst := {}

/-- Python attribute lookup on `self`: instance dictionary first, class
attribute as fallback.  (parseMeta never assigns the filename attributes,
so they always come from the class.) -/
def merge (c : Fields) (i : Inst) : Fields where
  west_bound_lon := i.west_bound_lon.getD c.west_bound_lon
  east_bound_lon := i.east_bound_lon.getD c.east_bound_lon
  north_bound_lat := i.north_bound_lat.getD c.north_bound_lat
  south_bound_lat := i.south_bound_lat.getD c.south_bound_lat
  ul_proj_x := i.ul_proj_x.getD c.ul_proj_x
  ul_proj_y := i.ul_proj_y.getD c.ul_proj_y
  pixsize := i.pixsize.getD c.pixsize
  path := i.path.getD c.path
  row := i.row.getD c.row
  map_proj := i.map_proj.getD c.map_proj
  utm_zone := i.utm_zone.getD c.utm_zone
  vert_lon_from_pole := i.vert_lon_from_pole.getD c.vert_lon_from_pole
  true_scale_lat := i.true_scale_lat.getD c.true_scale_lat
  false_east := i.false_east.getD c.false_east
  false_north := i.false_north.getD c.false_north
  retrieve_elev_odl := c.retrieve_elev_odl
  makegeomgrid_odl := c.makegeomgrid_odl
  geomresample_odl := c.geomresample_odl
  lsrd_omf := c.lsrd_omf
  source_dem := c.source_dem
  scene_dem := c.scene_dem
  scene_dem_envi := c.scene_dem_envi
  scene_dem_hdr := c.scene_dem_hdr
  geomgrid := c.geomgrid

/-! ## SceneDEM.parseMeta (do_create_dem.py, lines 163-313) -/

/-- One iteration of the parameter dispatch in the parseMeta loop
(lines 202-247): `param` and `value` are already stripped.  Reads of
`self.field` go through `merge`; assignments update the instance
dictionary.  Unrecognized parameters leave the instance unchanged. -/
def applyParam (c : Fields) (i : Inst) (param value : String) : Except PyExc Inst :=
  if param = "CORNER_UL_LAT_PRODUCT" then
    match pyFloat value with
    | .error e => .error e
    | .ok v =>
      if v > (merge c i).north_bound_lat then .ok {i with north_bound_lat := some v} else .ok i
  else if param = "CORNER_UL_LON_PRODUCT" then
    match pyFloat value with
    | .error e => .error e
    | .ok v =>
      if v < (merge c i).west_bound_lon then .ok {i with west_bound_lon := some v} else .ok i
  else if param = "CORNER_UR_LAT_PRODUCT" then
    match pyFloat value with
    | .error e => .error e
    | .ok v =>
      if v > (merge c i).north_bound_lat then .ok {i with north_bound_lat := some v} else .ok i
  else if param = "CORNER_UR_LON_PRODUCT" then
    match pyFloat value with
    | .error e => .error e
    | .ok v =>
      if v > (merge c i).east_bound_lon then .ok {i with east_bound_lon := some v} else .ok i
  else if param = "CORNER_LL_LAT_PRODUCT" then
    match pyFloat value with
    | .error e => .error e
    | .ok v =>
      if v < (merge c i).south_bound_lat then .ok {i with south_bound_lat := some v} else .ok i
  else if param = "CORNER_LL_LON_PRODUCT" then
    match pyFloat value with
    | .error e => .error e
    | .ok v =>
      if v < (merge c i).west_bound_lon then .ok {i with west_bound_lon := some v} else .ok i
  else if param = "CORNER_LR_LAT_PRODUCT" then
    match pyFloat value with
    | .error e => .error e
    | .ok v =>
      if v < (merge c i).south_bound_lat then .ok {i with south_bound_lat := some v} else .ok i
  else if param = "CORNER_LR_LON_PRODUCT" then
    match pyFloat value with
    | .error e => .error e
    | .ok v =>
      if v > (merge c i).east_bound_lon then .ok {i with east_bound_lon := some v} else .ok i
  else if param = "CORNER_UL_PROJECTION_X_PRODUCT" then
    match pyFloat value with
    | .error e => .error e
    | .ok v => .ok {i with ul_proj_x := some v}
  else if param = "CORNER_UL_PROJECTION_Y_PRODUCT" then
    match pyFloat value with
    | .error e => .error e
    | .ok v => .ok {i with ul_proj_y := some v}
  else if param = "GRID_CELL_SIZE_REFLECTIVE" then
    match pyFloat value with
    | .error e => .error e
    | .ok v => .ok {i with pixsize := some v}
  else if param = "WRS_PATH" then
    match pyInt value with
    | .error e => .error e
    | .ok v => .ok {i with path := some v}
  else if param = "WRS_ROW" then
    match pyInt value with
    | .error e => .error e
    | .ok v => .ok {i with row := some v}
  else if param = "MAP_PROJECTION" then
    .ok {i with map_proj := some (stripQuotes value)}
  else if param = "UTM_ZONE" then
    match pyInt value with
    | .error e => .error e
    | .ok v => .ok {i with utm_zone := some v}
  else if param = "VERTICAL_LON_FROM_POLE" then
    match pyFloat value with
    | .error e => .error e
    | .ok v => .ok {i with vert_lon_from_pole := some v}
  else if param = "TRUE_SCALE_LAT" then
    match pyFloat value with
    | .error e => .error e
    | .ok v => .ok {i with true_scale_lat := some v}
  else if param = "FALSE_EASTING" then
    match pyFloat value with
    | .error e => .error e
    | .ok v => .ok {i with false_east := some v}
  else if param = "FALSE_NORTHING" then
    match pyFloat value with
    | .error e => .error e
    | .ok v => .ok {i with false_north := some v}
  else
    .ok i

/-- The read loop of parseMeta (lines 188-248): process one line at a time,
breaking at an END line; each other line is split at the first equals sign
(raising when there is none) and dispatched through `applyParam`. -/
def scanLines (c : Fields) : Inst → List String → Except PyExc Inst
  | i, [] => .ok i
  | i, line :: rest =>
    let myline := pyStrip line
    if myline = "END" then .ok i
    else
      match splitEq1 myline with
      | none => .error .valueError
      | some (p, v) =>
        match applyParam c i (pyStrip p) (pyStrip v) with
        | .error e => .error e
        | .ok i' => scanLines c i' rest

/-- The validation block of parseMeta (lines 253-312): each failed check
logs a message and returns ERROR; on success the UL corner is shifted by
half a pixel (pixel-center to pixel-corner) and SUCCESS is returned.
Result: (return value, final instance dictionary, log messages). -/
def validate (c : Fields) (metafile : String) (i : Inst) : Int × Inst × List String :=
  let m := merge c i
  if m.north_bound_lat = -9999 ∨ m.south_bound_lat = 9999 ∨
     m.east_bound_lon = -9999 ∨ m.west_bound_lon = 9999 then
    (ERROR, i,
      ["Error: obtaining north/south and/or east/west bounding metadata fields from: "
        ++ metafile])
  else if m.ul_proj_x = -13 ∨ m.ul_proj_y = -13 then
    (ERROR, i, ["Error: obtaining UL project x/y fields from: " ++ metafile])
  else if m.pixsize = -13 then
    (ERROR, i, ["Error: obtaining reflective grid cell size field from: " ++ metafile])
  else if m.path = 0 ∨ m.row = 0 then
    (ERROR, i, ["Error: obtaining path/row metadata fields from: " ++ metafile])
  else if m.map_proj ≠ "UTM" ∧ m.map_proj ≠ "PS" then
    (ERROR, i,
      ["Error: obtaining map projection metadata field from: " ++ metafile
        ++ ".  Only UTM and PS are supported."])
  else if m.map_proj = "UTM" ∧ m.utm_zone = 0 then
    (ERROR, i, ["Error: obtaining UTM zone metadata field from: " ++ metafile])
  else if m.map_proj = "PS" ∧ (m.vert_lon_from_pole = -9999 ∨ m.true_scale_lat = -9999 ∨
      m.false_east = -9999 ∨ m.false_north = -9999) then
    (ERROR, i,
      ["Error: obtaining Polar Stereographic metadata fields (vertical longitude from pole,"
        ++ " true scale latitude, false easting, and/or false northing from: " ++ metafile])
  else
    (SUCCESS,
      {i with
        ul_proj_x := some (qsub m.ul_proj_x (qmul (mkRat 1 2) m.pixsize)),
        ul_proj_y := some (qadd m.ul_proj_y (qmul (mkRat 1 2) m.pixsize))},
      [])

/-- SceneDEM.parseMeta: scan the metadata lines, then validate.  The result
is the returned status (or the exception raised by the scan), the final
instance dictionary, and the messages logged. -/
def parseMeta (c : Fields) (i : Inst) (metafile : String) (lines : List String) :
    Except PyExc Int × Inst × List String :=
  match scanLines c i lines with
  | .error e => (.error e, i, [])
  | .ok r =>
    let (st, r', lg) := validate c metafile r
    (.ok st, r', lg)

/-- A sample well-formed UTM metadata file used by the concrete witnesses. -/
def sampleUTM : List String :=
  ["GROUP = L1_METADATA_FILE",
   "CORNER_UL_LAT_PRODUCT = 41.0",
   "CORNER_UL_LON_PRODUCT = -122.0",
   "CORNER_UR_LAT_PRODUCT = 41.0",
   "CORNER_UR_LON_PRODUCT = -120.0",
   "CORNER_LL_LAT_PRODUCT = 40.0",
   "CORNER_LL_LON_PRODUCT = -122.0",
   "CORNER_LR_LAT_PRODUCT = 40.0",
   "CORNER_LR_LON_PRODUCT = -120.0",
   "CORNER_UL_PROJECTION_X_PRODUCT = 500000.0",
   "CORNER_UL_PROJECTION_Y_PRODUCT = 4500000.0",
   "GRID_CELL_SIZE_REFLECTIVE = 30.0",
   "WRS_PATH = 46",
   "WRS_ROW = 28",
   "MAP_PROJECTION = \"UTM\"",
   "UTM_ZONE = 10",
   "END"]

example :
    (parseMeta classAttrs freshInst "s_MTL.txt" sampleUTM).1 = .ok SUCCESS := by decide
example :
    (merge classAttrs (parseMeta classAttrs freshInst "s_MTL.txt" sampleUTM).2.1).ul_proj_x
      = 499985 := by decide
example :
    (merge classAttrs (parseMeta classAttrs freshInst "s_MTL.txt" sampleUTM).2.1).utm_zone
      = 10 := by decide

/-! ## SceneDEM.fixGdalHdr (do_create_dem.py, lines 87-160) -/

/-- ENVI projection number for Polar Stereographic. -/
def ENVI_PS_PROJ : Int := 31

/-- Left-pad a string with zeros to the given width. -/
def padZeros (w : ℕ) (s : String) : String :=
  String.mk (List.replicate (w - s.data.length) '0') ++ s

/-- Python '%f' formatting: fixed-point with six decimal places.  The script
only ever formats values read from the metadata file, so the digit rounding
mode (half-up here, half-even for C doubles) does not affect any claim. -/
def fmt6 (q : ℚ) : String :=
  let sgn := if q < 0 then "-" else ""
  let scaled : ℕ := (2 * q.num.natAbs * 1000000 + q.den) / (2 * q.den)
  sgn ++ toString (scaled / 1000000) ++ "." ++ padZeros 6 (toString (scaled % 1000000))

/-- The corrected map info line for a UTM scene in the northern hemisphere
(utm_zone > 0). -/
def utmNorthMapInfo (m : Fields) : String :=
  "map info = \x7bUTM, 1.000, 1.000, " ++ fmt6 m.ul_proj_x ++ ", " ++ fmt6 m.ul_proj_y
    ++ ", " ++ fmt6 m.pixsize ++ ", " ++ fmt6 m.pixsize ++ ", " ++ toString m.utm_zone
    ++ ", " ++ "North" ++ ", WGS-84, units=Meters\x7d\n"

/-- The corrected map info line for a UTM scene in the southern hemisphere:
the zone is negated before formatting. -/
def utmSouthMapInfo (m : Fields) : String :=
  "map info = \x7bUTM, 1.000, 1.000, " ++ fmt6 m.ul_proj_x ++ ", " ++ fmt6 m.ul_proj_y
    ++ ", " ++ fmt6 m.pixsize ++ ", " ++ fmt6 m.pixsize ++ ", " ++ toString (-m.utm_zone)
    ++ ", " ++ "South" ++ ", WGS-84, units=Meters\x7d\n"

/-- The corrected map info line for a Polar Stereographic scene. -/
def psMapInfo (m : Fields) : String :=
  "map info = \x7bPolar Stereographic, 1.000, 1.000, " ++ fmt6 m.ul_proj_x ++ ", "
    ++ fmt6 m.ul_proj_y ++ ", " ++ fmt6 m.pixsize ++ ", " ++ fmt6 m.pixsize
    ++ ", WGS-84, units=Meters\x7d\n"

/-- The extra projection info line written for a Polar Stereographic scene,
carrying the four PS parameters. -/
def psProjInfo (m : Fields) : String :=
  "projection info" ++ " = \x7b" ++ toString ENVI_PS_PROJ ++ ", 6378137.0, 6356752.314245179, "
    ++ fmt6 m.true_scale_lat ++ ", " ++ fmt6 m.vert_lon_from_pole ++ ", "
    ++ fmt6 m.false_east ++ ", " ++ fmt6 m.false_north
    ++ ", WGS-84, Polar Stereographic, units=Meters\x7d\n"

/-- Does `t` occur as a contiguous substring of `s` (Python s.find(t) >= 0)? -/
def hasSubstr (t : List Char) : List Char → Bool
  | [] => t.isEmpty
  | c :: s => t.isPrefixOf (c :: s) || hasSubstr t s

/-- The test on line 121: the stripped line contains "map info". -/
def isMapInfoLine (line : String) : Bool :=
  hasSubstr "map info".data (trimChars line.data)

/-- What the loop writes in place of one map info line: a UTM record gets a
single corrected line whose hemisphere comes from the sign of the zone; a
PS record gets the corrected map info line plus a projection info line;
any other projection writes nothing (no branch in the source fires). -/
def mapInfoRepl (m : Fields) : List String :=
  if m.map_proj = "UTM" then
    if m.utm_zone > 0 then [utmNorthMapInfo m] else [utmSouthMapInfo m]
  else if m.map_proj = "PS" then [psMapInfo m, psProjInfo m]
  else []

/-- The line-by-line rewrite of the header performed by fixGdalHdr
(lines 115-149): map info lines are replaced through `mapInfoRepl`; every
other line is copied through unchanged. -/
def fixHdrLines (m : Fields) : List String → List String
  | [] => []
  | line :: rest =>
    (if isMapInfoLine line then mapInfoRepl m else [line]) ++ fixHdrLines m rest

/-- Snapshot of the two file-system paths fixGdalHdr touches: the header
path and the scratch path temp.hdr (none = no file at that path). -/
structure HdrFS where
  hdr : Option (List String)
  temp : Option (List String)
  deriving DecidableEq

/-- The sequence of file-system states produced by one run of fixGdalHdr:
initial state, temp.hdr opened for writing (truncated to empty), one state
per line written to the scratch file, then os.remove of the header, then
os.rename of the scratch file onto the header path. -/
def fixGdalHdrTrace (m : Fields) (old : List String) : List HdrFS :=
  let out := fixHdrLines m old
  [⟨some old, none⟩]
    ++ (List.range (out.length + 1)).map (fun k => ⟨some old, some (out.take k)⟩)
    ++ [⟨none, some out⟩, ⟨some out, none⟩]

/-! ## SceneDEM.writeParams (do_create_dem.py, lines 316-433) -/

/-- The projection block of the OMF file (lines 353-360): UTM emits the UTM
selector and the zone, PS emits only the PS selector. -/
def omfProjLines (m : Fields) : List String :=
  if m.map_proj = "UTM" then
    ["  TARGET_PROJECTION = 1\n", "  UTM_ZONE = " ++ toString m.utm_zone ++ "\n"]
  else if m.map_proj = "PS" then
    ["  TARGET_PROJECTION = 6\n"]
  else []

/-- The lines written to the OMF parameter file (omf_list, lines 333-365). -/
def omfLines (m : Fields) (metafile : String) : List String :=
  ["OBJECT = OMF\n",
   "  SATELLITE = 8\n",
   "  UL_BOUNDARY_LAT_LON = (" ++ fmt6 m.north_bound_lat ++ ", " ++ fmt6 m.west_bound_lon ++ ")\n",
   "  UR_BOUNDARY_LAT_LON = (" ++ fmt6 m.north_bound_lat ++ ", " ++ fmt6 m.east_bound_lon ++ ")\n",
   "  LL_BOUNDARY_LAT_LON = (" ++ fmt6 m.south_bound_lat ++ ", " ++ fmt6 m.west_bound_lon ++ ")\n",
   "  LR_BOUNDARY_LAT_LON = (" ++ fmt6 m.south_bound_lat ++ ", " ++ fmt6 m.east_bound_lon ++ ")\n",
   "  TARGET_WRS_PATH = " ++ toString m.path ++ "\n",
   "  TARGET_WRS_ROW = " ++ toString m.row ++ "\n"]
  ++ omfProjLines m
  ++ ["  GRID_FILENAME_PASS_1 = \"" ++ metafile ++ "\"\n\n",
      "END_OBJECT = OMF\n",
      "END\n"]

/-- Content of the retrieve_elevation ODL file (lines 375-381). -/
def retrieveElevationOdl (m : Fields) : String :=
  "OBJECT = SCA\n  WO_DIRECTORY = \".\"\n  WORK_ORDER_ID = LSRD\n  DEM_FILENAME = \""
    ++ m.source_dem ++ "\"\nEND_OBJECT = SCA\nEND\n"

/-- Content of the makegeomgrid ODL file (lines 391-403). -/
def makegeomgridOdl (m : Fields) : String :=
  "OBJECT = GRID_TERRAIN\n  WO_DIRECTORY = \".\"\n  WORK_ORDER_ID = LSRD\n"
    ++ "  CELL_LINES = 50\n  CELL_SAMPLES = 50\n  GEOM_GRID_FILENAME = \""
    ++ m.geomgrid
    ++ "\"\n  PROCESSING_PASS = 1\n  SOURCE_BAND_NUMBER_LIST = 1\n"
    ++ "  SOURCE_IMAGE_TYPE = 0\n  TARGET_BAND_NUMBER_LIST = 1\n"
    ++ "END_OBJECT = GRID_TERRAIN\nEND\n"

/-- Content of the geomresample ODL file (lines 413-428). -/
def geomresampleOdl (m : Fields) : String :=
  "OBJECT = RESAMPLE_TERRAIN\n  WO_DIRECTORY = \".\"\n  WORK_ORDER_ID = LSRD\n"
    ++ "  BACKGRND = 0.000000\n  BAND_LIST = 1\n"
    ++ "  MINMAX_OUTPUT = (-500.000000,9000.000000)\n  ODTYPE = \"I*2\"\n"
    ++ "  OUTPUT_IMAGE_FILENAME = \"" ++ m.scene_dem
    ++ "\"\n  PCCALPHA = -0.500000\n  PROCESSING_PASS = 1\n  RESAMPLE = BI\n"
    ++ "  SOURCE_IMAGE_TYPE = 0\n  WINDOW_FLAG = 0\n"
    ++ "END_OBJECT = RESAMPLE_TERRAIN\nEND\n"

/-! ## SceneDEM.createDEM (do_create_dem.py, lines 436-606)

The driver is modelled as a function from an environment (the inputs the
process reads: file existence, directory writability, metadata content,
and the outcome of each external tool) to the returned status together
with the caller-visible world state (current working directory, log,
files written, tools invoked, final header content).  The optparse branch
taken when no metafile argument is passed is outside the model; createDEM
is modelled for an explicitly supplied metadata file name. -/

/-- Outcome of one subprocess.check_output call: normal exit with captured
output, nonzero exit (raising CalledProcessError, which the source
catches), or an invocation failure such as executable not found (raising
OSError, which the source does not catch). -/
inductive ToolOutcome where
  | success (output : String)
  | calledProcessError (output : String)
  | invocationError
  deriving DecidableEq

/-- The environment one createDEM run executes in. -/
structure Env where
  metafile : String
  base_metafile : String
  metadir : String
  startCwd : String
  metafileIsFile : Bool
  metadirWritable : Bool
  usebin : Bool
  binEnv : Option String
  metaLines : List String
  t_retrieve : ToolOutcome
  t_makegeomgrid : ToolOutcome
  t_geomresample : ToolOutcome
  t_gdal : ToolOutcome
  gdalHdrOut : Option (List String)
  deriving DecidableEq

/-- The caller-visible state createDEM manipulates. -/
structure World where
  cwd : String
  log : List String
  written : List String
  invoked : List String
  hdr : Option (List String)
  deriving DecidableEq

/-- Append one message to the log. -/
def logW (w : World) (msg : String) : World :=
  {w with log := w.log ++ [msg]}

/-- Result of one external-tool block in createDEM: either control continues
to the next block, or the function is done (returning ERROR after a caught
CalledProcessError, or propagating OSError). -/
inductive StepRes where
  | cont (w : World)
  | done (r : Except PyExc Int) (w : World)

/-- One of the four external-tool blocks (lines 543-593): log the command
line, attempt the invocation; on success log the captured output and
continue; on CalledProcessError log the fixed failure message, restore the
working directory and return ERROR; on OSError the exception propagates
without restoring the working directory. -/
def runTool (mydir cmd args failMsg : String) (outcome : ToolOutcome) (w : World) : StepRes :=
  let w := {w with log := w.log ++ ["Executing: " ++ cmd ++ " " ++ args],
                   invoked := w.invoked ++ [cmd]}
  match outcome with
  | .success out => .cont {w with log := w.log ++ [out]}
  | .calledProcessError _ =>
    .done (.ok ERROR) {w with log := w.log ++ [failMsg], cwd := mydir}
  | .invocationError => .done (.error .osError) w

/-- SceneDEM.createDEM for an explicitly supplied metafile.  `c` is the
class-attribute record and `i0` the instance dictionary of the SceneDEM
object the method runs on (empty for the fresh instance the script
creates).  The four parameter files are recorded by name when writeParams
runs; their contents are given by omfLines and the three ODL renderers. -/
def createDEM (c : Fields) (i0 : Inst) (env : Env) : Except PyExc Int × World :=
  let w0 : World := {cwd := env.startCwd, log := [], written := [], invoked := [], hdr := none}
  let w1 := logW w0 ("Processing scene-based DEMs for Landsat metadata file: " ++ env.metafile)
  match (if env.usebin then
      match env.binEnv with
      | none => Except.error PyExc.typeError
      | some b => Except.ok (b ++ "/", logW w1 ("BIN environment variable: " ++ (b ++ "/")))
    else Except.ok ("", logW w1 "DEM executables expected to be in the PATH")) with
  | .error e => (.error e, w1)
  | .ok (bin_dir, w2) =>
    if ¬ env.metafileIsFile then
      (.ok ERROR,
        logW w2 ("Error: metadata file does not exist or is not accessible: " ++ env.metafile))
    else
      let base := env.base_metafile
      let w3 := logW w2 ("Processing metadata file: " ++ base)
      let mydir := env.startCwd
      if ¬ env.metadirWritable then
        (.ok ERROR,
          logW w3 ("Path of metadata file is not writable: " ++ env.metadir
            ++ ".  DEM apps need write access to the metadata directory."))
      else
        let w4 := {logW w3 ("Changing directories for DEM processing: " ++ env.metadir) with
                     cwd := env.metadir}
        match parseMeta c i0 base env.metaLines with
        | (.error e, _, plg) => (.error e, {w4 with log := w4.log ++ plg})
        | (.ok st, inst, plg) =>
          let w5 := {w4 with log := w4.log ++ plg}
          if st ≠ SUCCESS then
            (.ok ERROR,
              {logW w5 "Error parsing the metadata. Processing will terminate." with cwd := mydir})
          else
            let m := merge c inst
            let w6 := {w5 with written := w5.written
              ++ [m.lsrd_omf, m.retrieve_elev_odl, m.makegeomgrid_odl, m.geomresample_odl]}
            match runTool mydir (bin_dir ++ "retrieve_elevation") m.retrieve_elev_odl
                "Error running retrieve_elevation. Processing will terminate."
                env.t_retrieve w6 with
            | .done r w => (r, w)
            | .cont w7 =>
              match runTool mydir (bin_dir ++ "makegeomgrid") m.makegeomgrid_odl
                  "Error running makegeomgrid. Processing will terminate."
                  env.t_makegeomgrid w7 with
              | .done r w => (r, w)
              | .cont w8 =>
                match runTool mydir (bin_dir ++ "geomresample") m.geomresample_odl
                    "Error running geomresample. Processing will terminate."
                    env.t_geomresample w8 with
                | .done r w => (r, w)
                | .cont w9 =>
                  match runTool mydir "gdal_translate"
                      ("-of ENVI HDF5:\"" ++ m.scene_dem ++ "\"://B01 " ++ m.scene_dem_envi)
                      "Error running gdal_translate, which is expected to be in your PATH. Processing will terminate."
                      env.t_gdal w9 with
                  | .done r w => (r, w)
                  | .cont w10 =>
                    let w11 := {w10 with hdr := env.gdalHdrOut}
                    match env.gdalHdrOut with
                    | none => (.error .ioError, w11)
                    | some old =>
                      let w12 := {w11 with hdr := some (fixHdrLines m old)}
                      (.ok SUCCESS,
                        {logW w12 "Completion of scene based DEM generation." with cwd := mydir})

/-! ## espa_logging.py -/

/-- Module-level logging state: the global __LOG_HANDLER__, modelled as the
name of the open log file when one is open. -/
structure LogState where
  handler : Option String
  deriving DecidableEq

/-- open_log_handler (espa_logging.py, lines 39-57).  `openOk` tells whether
Python open(file_name, 'a') succeeds for a given name; a failed open raises
(modelled as IOError) because the source does not guard the open call. -/
def open_log_handler (openOk : String → Bool) (st : LogState) (file_name : Option String) :
    Except PyExc (Int × LogState) :=
  match (if st.handler = none ∧ file_name ≠ none then
      match file_name with
      | some f =>
        if openOk f then Except.ok (⟨some f⟩ : LogState) else Except.error PyExc.ioError
      | none => Except.ok st
    else Except.ok st) with
  | .error e => .error e
  | .ok st' => if st'.handler = none then .ok (ERROR, st') else .ok (SUCCESS, st')

/-- Where one log(...) call writes its rendered message (lines 138-141):
standard output when no handler is open, the open file otherwise. -/
inductive LogDest where
  | stdout (message : String)
  | toFile (handle message : String)
  deriving DecidableEq

/-- The output routing of log(...). -/
def logDest (st : LogState) (message_string : String) : LogDest :=
  match st.handler with
  | none => .stdout message_string
  | some h => .toFile h message_string

-- sanity examples
example : isMapInfoLine "map info = \x7bGeographic Lat/Lon, ...\x7d" = true := by decide
example : isMapInfoLine "samples = 8241" = false := by decide
example : fmt6 (mkRat 499985 1) = "499985.000000" := by decide
example : fmt6 (mkRat (-45) 10) = "-4.500000" := by decide
example : toString (-(-10 : Int)) = "10" := by decide

/-! ## Lemmas about the parser -/

/-- The recognized parameter name of a raw metadata line: the stripped text
before the first equals sign of the stripped line (none when the line has
no equals sign, in which case the scan raises instead). -/
def paramOf (l : String) : Option String :=
  match splitEq1 (pyStrip l) with
  | none => none
  | some (p, _) => some (pyStrip p)

set_option maxHeartbeats 3200000 in
/-- Characterization of one applyParam step: every field is either left
unchanged or was assigned from the line's own parameter; an assignment
implies the parameter matched that field's key and the value converted. -/
theorem applyParam_fields (c : Fields) (i : Inst) (p v : String) (i' : Inst)
    (h : applyParam c i p v = .ok i') :
    (i'.north_bound_lat = i.north_bound_lat ∨
      ((p = "CORNER_UL_LAT_PRODUCT" ∨ p = "CORNER_UR_LAT_PRODUCT") ∧
        ∃ q, pyFloat v = .ok q ∧ i'.north_bound_lat = some q)) ∧
    (i'.south_bound_lat = i.south_bound_lat ∨
      ((p = "CORNER_LL_LAT_PRODUCT" ∨ p = "CORNER_LR_LAT_PRODUCT") ∧
        ∃ q, pyFloat v = .ok q ∧ i'.south_bound_lat = some q)) ∧
    (i'.east_bound_lon = i.east_bound_lon ∨
      ((p = "CORNER_UR_LON_PRODUCT" ∨ p = "CORNER_LR_LON_PRODUCT") ∧
        ∃ q, pyFloat v = .ok q ∧ i'.east_bound_lon = some q)) ∧
    (i'.west_bound_lon = i.west_bound_lon ∨
      ((p = "CORNER_UL_LON_PRODUCT" ∨ p = "CORNER_LL_LON_PRODUCT") ∧
        ∃ q, pyFloat v = .ok q ∧ i'.west_bound_lon = some q)) ∧
    (i'.ul_proj_x = i.ul_proj_x ∨
      (p = "CORNER_UL_PROJECTION_X_PRODUCT" ∧ ∃ q, pyFloat v = .ok q ∧ i'.ul_proj_x = some q)) ∧
    (i'.ul_proj_y = i.ul_proj_y ∨
      (p = "CORNER_UL_PROJECTION_Y_PRODUCT" ∧ ∃ q, pyFloat v = .ok q ∧ i'.ul_proj_y = some q)) ∧
    (i'.pixsize = i.pixsize ∨
      (p = "GRID_CELL_SIZE_REFLECTIVE" ∧ ∃ q, pyFloat v = .ok q ∧ i'.pixsize = some q)) ∧
    (i'.path = i.path ∨ (p = "WRS_PATH" ∧ ∃ n, pyInt v = .ok n ∧ i'.path = some n)) ∧
    (i'.row = i.row ∨ (p = "WRS_ROW" ∧ ∃ n, pyInt v = .ok n ∧ i'.row = some n)) ∧
    (i'.map_proj = i.map_proj ∨
      (p = "MAP_PROJECTION" ∧ i'.map_proj = some (stripQuotes v))) ∧
    (i'.utm_zone = i.utm_zone ∨ (p = "UTM_ZONE" ∧ ∃ n, pyInt v = .ok n ∧ i'.utm_zone = some n)) ∧
    (i'.vert_lon_from_pole = i.vert_lon_from_pole ∨
      (p = "VERTICAL_LON_FROM_POLE" ∧ ∃ q, pyFloat v = .ok q ∧ i'.vert_lon_from_pole = some q)) ∧
    (i'.true_scale_lat = i.true_scale_lat ∨
      (p = "TRUE_SCALE_LAT" ∧ ∃ q, pyFloat v = .ok q ∧ i'.true_scale_lat = some q)) ∧
    (i'.false_east = i.false_east ∨
      (p = "FALSE_EASTING" ∧ ∃ q, pyFloat v = .ok q ∧ i'.false_east = some q)) ∧
    (i'.false_north = i.false_north ∨
      (p = "FALSE_NORTHING" ∧ ∃ q, pyFloat v = .ok q ∧ i'.false_north = some q)) := by
  by_cases h1 : p = "CORNER_UL_LAT_PRODUCT"
  · subst h1
    simp only [applyParam, String.reduceEq, reduceIte] at h
    repeat' split at h
    all_goals
      first
        | (injection h
           done)
        | (injection h with h
           subst h
           refine ⟨?_, ?_, ?_, ?_, ?_, ?_, ?_, ?_, ?_, ?_, ?_, ?_, ?_, ?_, ?_⟩ <;>
             first
               | exact Or.inl rfl
               | exact Or.inr (by simp_all))
  by_cases h2 : p = "CORNER_UL_LON_PRODUCT"
  · subst h2
    simp only [applyParam, String.reduceEq, reduceIte] at h
    repeat' split at h
    all_goals
      first
        | (injection h
           done)
        | (injection h with h
           subst h
           refine ⟨?_, ?_, ?_, ?_, ?_, ?_, ?_, ?_, ?_, ?_, ?_, ?_, ?_, ?_, ?_⟩ <;>
             first
               | exact Or.inl rfl
               | exact Or.inr (by simp_all))
  by_cases h3 : p = "CORNER_UR_LAT_PRODUCT"
  · subst h3
    simp only [applyParam, String.reduceEq, reduceIte] at h
    repeat' split at h
    all_goals
      first
        | (injection h
           done)
        | (injection h with h
           subst h
           refine ⟨?_, ?_, ?_, ?_, ?_, ?_, ?_, ?_, ?_, ?_, ?_, ?_, ?_, ?_, ?_⟩ <;>
             first
               | exact Or.inl rfl
               | exact Or.inr (by simp_all))
  by_cases h4 : p = "CORNER_UR_LON_PRODUCT"
  · subst h4
    simp only [applyParam, String.reduceEq, reduceIte] at h
    repeat' split at h
    all_goals
      first
        | (injection h
           done)
        | (injection h with h
           subst h
           refine ⟨?_, ?_, ?_, ?_, ?_, ?_, ?_, ?_, ?_, ?_, ?_, ?_, ?_, ?_, ?_⟩ <;>
             first
               | exact Or.inl rfl
               | exact Or.inr (by simp_all))
  by_cases h5 : p = "CORNER_LL_LAT_PRODUCT"
  · subst h5
    simp only [applyParam, String.reduceEq, reduceIte] at h
    repeat' split at h
    all_goals
      first
        | (injection h
           done)
        | (injection h with h
           subst h
           refine ⟨?_, ?_, ?_, ?_, ?_, ?_, ?_, ?_, ?_, ?_, ?_, ?_, ?_, ?_, ?_⟩ <;>
             first
               | exact Or.inl rfl
               | exact Or.inr (by simp_all))
  by_cases h6 : p = "CORNER_LL_LON_PRODUCT"
  · subst h6
    simp only [applyParam, String.reduceEq, reduceIte] at h
    repeat' split at h
    all_goals
      first
        | (injection h
           done)
        | (injection h with h
           subst h
           refine ⟨?_, ?_, ?_, ?_, ?_, ?_, ?_, ?_, ?_, ?_, ?_, ?_, ?_, ?_, ?_⟩ <;>
             first
               | exact Or.inl rfl
               | exact Or.inr (by simp_all))
  by_cases h7 : p = "CORNER_LR_LAT_PRODUCT"
  · subst h7
    simp only [applyParam, String.reduceEq, reduceIte] at h
    repeat' split at h
    all_goals
      first
        | (injection h
           done)
        | (injection h with h
           subst h
           refine ⟨?_, ?_, ?_, ?_, ?_, ?_, ?_, ?_, ?_, ?_, ?_, ?_, ?_, ?_, ?_⟩ <;>
             first
               | exact Or.inl rfl
               | exact Or.inr (by simp_all))
  by_cases h8 : p = "CORNER_LR_LON_PRODUCT"
  · subst h8
    simp only [applyParam, String.reduceEq, reduceIte] at h
    repeat' split at h
    all_goals
      first
        | (injection h
           done)
        | (injection h with h
           subst h
           refine ⟨?_, ?_, ?_, ?_, ?_, ?_, ?_, ?_, ?_, ?_, ?_, ?_, ?_, ?_, ?_⟩ <;>
             first
               | exact Or.inl rfl
               | exact Or.inr (by simp_all))
  by_cases h9 : p = "CORNER_UL_PROJECTION_X_PRODUCT"
  · subst h9
    simp only [applyParam, String.reduceEq, reduceIte] at h
    repeat' split at h
    all_goals
      first
        | (injection h
           done)
        | (injection h with h
           subst h
           refine ⟨?_, ?_, ?_, ?_, ?_, ?_, ?_, ?_, ?_, ?_, ?_, ?_, ?_, ?_, ?_⟩ <;>
             first
               | exact Or.inl rfl
               | exact Or.inr (by simp_all))
  by_cases h10 : p = "CORNER_UL_PROJECTION_Y_PRODUCT"
  · subst h10
    simp only [applyParam, String.reduceEq, reduceIte] at h
    repeat' split at h
    all_goals
      first
        | (injection h
           done)
        | (injection h with h
           subst h
           refine ⟨?_, ?_, ?_, ?_, ?_, ?_, ?_, ?_, ?_, ?_, ?_, ?_, ?_, ?_, ?_⟩ <;>
             first
               | exact Or.inl rfl
               | exact Or.inr (by simp_all))
  by_cases h11 : p = "GRID_CELL_SIZE_REFLECTIVE"
  · subst h11
    simp only [applyParam, String.reduceEq, reduceIte] at h
    repeat' split at h
    all_goals
      first
        | (injection h
           done)
        | (injection h with h
           subst h
           refine ⟨?_, ?_, ?_, ?_, ?_, ?_, ?_, ?_, ?_, ?_, ?_, ?_, ?_, ?_, ?_⟩ <;>
             first
               | exact Or.inl rfl
               | exact Or.inr (by simp_all))
  by_cases h12 : p = "WRS_PATH"
  · subst h12
    simp only [applyParam, String.reduceEq, reduceIte] at h
    repeat' split at h
    all_goals
      first
        | (injection h
           done)
        | (injection h with h
           subst h
           refine ⟨?_, ?_, ?_, ?_, ?_, ?_, ?_, ?_, ?_, ?_, ?_, ?_, ?_, ?_, ?_⟩ <;>
             first
               | exact Or.inl rfl
               | exact Or.inr (by simp_all))
  by_cases h13 : p = "WRS_ROW"
  · subst h13
    simp only [applyParam, String.reduceEq, reduceIte] at h
    repeat' split at h
    all_goals
      first
        | (injection h
           done)
        | (injection h with h
           subst h
           refine ⟨?_, ?_, ?_, ?_, ?_, ?_, ?_, ?_, ?_, ?_, ?_, ?_, ?_, ?_, ?_⟩ <;>
             first
               | exact Or.inl rfl
               | exact Or.inr (by simp_all))
  by_cases h14 : p = "MAP_PROJECTION"
  · subst h14
    simp only [applyParam, String.reduceEq, reduceIte] at h
    repeat' split at h
    all_goals
      first
        | (injection h
           done)
        | (injection h with h
           subst h
           refine ⟨?_, ?_, ?_, ?_, ?_, ?_, ?_, ?_, ?_, ?_, ?_, ?_, ?_, ?_, ?_⟩ <;>
             first
               | exact Or.inl rfl
               | exact Or.inr (by simp_all))
  by_cases h15 : p = "UTM_ZONE"
  · subst h15
    simp only [applyParam, String.reduceEq, reduceIte] at h
    repeat' split at h
    all_goals
      first
        | (injection h
           done)
        | (injection h with h
           subst h
           refine ⟨?_, ?_, ?_, ?_, ?_, ?_, ?_, ?_, ?_, ?_, ?_, ?_, ?_, ?_, ?_⟩ <;>
             first
               | exact Or.inl rfl
               | exact Or.inr (by simp_all))
  by_cases h16 : p = "VERTICAL_LON_FROM_POLE"
  · subst h16
    simp only [applyParam, String.reduceEq, reduceIte] at h
    repeat' split at h
    all_goals
      first
        | (injection h
           done)
        | (injection h with h
           subst h
           refine ⟨?_, ?_, ?_, ?_, ?_, ?_, ?_, ?_, ?_, ?_, ?_, ?_, ?_, ?_, ?_⟩ <;>
             first
               | exact Or.inl rfl
               | exact Or.inr (by simp_all))
  by_cases h17 : p = "TRUE_SCALE_LAT"
  · subst h17
    simp only [applyParam, String.reduceEq, reduceIte] at h
    repeat' split at h
    all_goals
      first
        | (injection h
           done)
        | (injection h with h
           subst h
           refine ⟨?_, ?_, ?_, ?_, ?_, ?_, ?_, ?_, ?_, ?_, ?_, ?_, ?_, ?_, ?_⟩ <;>
             first
               | exact Or.inl rfl
               | exact Or.inr (by simp_all))
  by_cases h18 : p = "FALSE_EASTING"
  · subst h18
    simp only [applyParam, String.reduceEq, reduceIte] at h
    repeat' split at h
    all_goals
      first
        | (injection h
           done)
        | (injection h with h
           subst h
           refine ⟨?_, ?_, ?_, ?_, ?_, ?_, ?_, ?_, ?_, ?_, ?_, ?_, ?_, ?_, ?_⟩ <;>
             first
               | exact Or.inl rfl
               | exact Or.inr (by simp_all))
  by_cases h19 : p = "FALSE_NORTHING"
  · subst h19
    simp only [applyParam, String.reduceEq, reduceIte] at h
    repeat' split at h
    all_goals
      first
        | (injection h
           done)
        | (injection h with h
           subst h
           refine ⟨?_, ?_, ?_, ?_, ?_, ?_, ?_, ?_, ?_, ?_, ?_, ?_, ?_, ?_, ?_⟩ <;>
             first
               | exact Or.inl rfl
               | exact Or.inr (by simp_all))
  unfold applyParam at h
  rw [if_neg h1, if_neg h2, if_neg h3, if_neg h4, if_neg h5, if_neg h6, if_neg h7, if_neg h8, if_neg h9, if_neg h10, if_neg h11, if_neg h12, if_neg h13, if_neg h14, if_neg h15, if_neg h16, if_neg h17, if_neg h18, if_neg h19] at h
  injection h with h
  subst h
  refine ⟨?_, ?_, ?_, ?_, ?_, ?_, ?_, ?_, ?_, ?_, ?_, ?_, ?_, ?_, ?_⟩ <;> exact Or.inl rfl

/-- Fields whose keys never occur in the processed lines are preserved by
the scan loop. -/
theorem scanLines_preserve {α : Type} (c : Fields) (f : Inst → α) (keys : List String)
    (hap : ∀ i p v i', applyParam c i p v = .ok i' → (∀ k ∈ keys, p ≠ k) → f i' = f i) :
    ∀ (ls : List String) (i r : Inst), scanLines c i ls = .ok r →
      (∀ l ∈ ls, ∀ k ∈ keys, paramOf l ≠ some k) → f r = f i := by
  intro ls
  induction ls with
  | nil =>
    intro i r h _
    simp only [scanLines] at h
    cases h
    rfl
  | cons l rest ih =>
    intro i r h hm
    simp only [scanLines] at h
    split at h
    · cases h
      rfl
    · split at h
      · exact absurd h (by simp)
      · rename_i hnotend p v hsp
        split at h
        · exact absurd h (by simp)
        · rename_i i' hap2
          have hk : ∀ k ∈ keys, pyStrip p ≠ k := by
            intro k hkk heq
            have hpl : paramOf l = some (pyStrip p) := by
              simp [paramOf, hsp]
            exact hm l (List.mem_cons_self l rest) k hkk (by rw [hpl, heq])
          have h1 := hap i (pyStrip p) (pyStrip v) i' hap2 hk
          have h2 := ih i' r h (fun x hx => hm x (List.mem_cons_of_mem l hx))
          rw [h2, h1]

/-- The value (as parsed by float) of the last effective occurrence of a
directly-assigned key before the END line: this is the value the scan
leaves in the field, since each occurrence overwrites the previous one. -/
def lastVal (key : String) : List String → Option ℚ
  | [] => none
  | l :: rest =>
    if pyStrip l = "END" then none
    else
      match splitEq1 (pyStrip l) with
      | none => none
      | some (p, v) =>
        match lastVal key rest with
        | some q => some q
        | none => if pyStrip p = key then (pyFloat (pyStrip v)).toOption else none

/-- applyParam at the UL projection x key always overwrites the field with
the parsed value. -/
theorem applyParam_ulx_set (c : Fields) (i : Inst) (v : String) :
    applyParam c i "CORNER_UL_PROJECTION_X_PRODUCT" v =
      match pyFloat v with
      | .error e => .error e
      | .ok q => .ok {i with ul_proj_x := some q} := by
  simp only [applyParam, String.reduceEq, reduceIte]

/-- applyParam at the UL projection y key always overwrites the field with
the parsed value. -/
theorem applyParam_uly_set (c : Fields) (i : Inst) (v : String) :
    applyParam c i "CORNER_UL_PROJECTION_Y_PRODUCT" v =
      match pyFloat v with
      | .error e => .error e
      | .ok q => .ok {i with ul_proj_y := some q} := by
  simp only [applyParam, String.reduceEq, reduceIte]

/-- applyParam at the reflective grid cell size key always overwrites the
field with the parsed value. -/
theorem applyParam_pixsize_set (c : Fields) (i : Inst) (v : String) :
    applyParam c i "GRID_CELL_SIZE_REFLECTIVE" v =
      match pyFloat v with
      | .error e => .error e
      | .ok q => .ok {i with pixsize := some q} := by
  simp only [applyParam, String.reduceEq, reduceIte]

/-- A directly-assigned float field holds, after a successful scan, the value
of the last effective occurrence of its key, and keeps its starting value
when the key never effectively occurs. -/
theorem scanLines_lastVal (c : Fields) (f : Inst → Option ℚ) (key : String)
    (hset : ∀ i v i', applyParam c i key v = .ok i' →
      ∃ q, pyFloat v = .ok q ∧ f i' = some q)
    (hkeep : ∀ i p v i', applyParam c i p v = .ok i' → p ≠ key → f i' = f i) :
    ∀ (ls : List String) (i r : Inst), scanLines c i ls = .ok r →
      (∀ q, lastVal key ls = some q → f r = some q) ∧
      (lastVal key ls = none → f r = f i) := by
  intro ls
  induction ls with
  | nil =>
    intro i r h
    simp only [scanLines] at h
    cases h
    constructor
    · intro q hq
      exact absurd hq (by simp [lastVal])
    · intro _
      rfl
  | cons l rest ih =>
    intro i r h
    simp only [scanLines] at h
    split at h
    · cases h
      rename_i hEnd
      constructor
      · intro q hq
        rw [lastVal, if_pos hEnd] at hq
        exact absurd hq (by simp)
      · intro _
        rfl
    · rename_i hEnd
      split at h
      · exact absurd h (by simp)
      · rename_i p v hsp
        split at h
        · exact absurd h (by simp)
        · rename_i i' hap2
          have hrec := ih i' r h
          cases hlv : lastVal key rest with
          | some q' =>
            have hcons : lastVal key (l :: rest) = some q' := by
              rw [lastVal, if_neg hEnd, hsp, hlv]
            constructor
            · intro q hq
              rw [hcons] at hq
              cases hq
              exact hrec.1 q' hlv
            · intro hq
              rw [hcons] at hq
              exact absurd hq (by simp)
          | none =>
            by_cases hpk : pyStrip p = key
            · obtain ⟨q0, hq0, hfi⟩ := hset i (pyStrip v) i' (by rw [← hpk]; exact hap2)
              have hcons : lastVal key (l :: rest) = some q0 := by
                rw [lastVal, if_neg hEnd, hsp, hlv]
                simp [hpk, hq0, Except.toOption]
              constructor
              · intro q hq
                rw [hcons] at hq
                cases hq
                rw [hrec.2 hlv, hfi]
              · intro hq
                rw [hcons] at hq
                exact absurd hq (by simp)
            · have hcons : lastVal key (l :: rest) = none := by
                rw [lastVal, if_neg hEnd, hsp, hlv]
                simp [hpk]
              have hfi := hkeep i (pyStrip p) (pyStrip v) i' hap2 hpk
              constructor
              · intro q hq
                rw [hcons] at hq
                exact absurd hq (by simp)
              · intro _
                rw [hrec.2 hlv, hfi]

/-- The parsed values of the effective lines whose key belongs to `keys`. -/
def valsOf (keys : List String) : List String → List ℚ
  | [] => []
  | l :: rest =>
    if pyStrip l = "END" then []
    else
      match splitEq1 (pyStrip l) with
      | none => []
      | some (p, v) =>
        (if pyStrip p ∈ keys then ((pyFloat (pyStrip v)).toOption.toList) else [])
          ++ valsOf keys rest

/-- A bound-tracking field either keeps its starting value or ends at one of
the observed values of its keys. -/
theorem scanLines_memVals (c : Fields) (f : Inst → Option ℚ) (keys : List String)
    (hap : ∀ i p v i', applyParam c i p v = .ok i' →
      f i' = f i ∨ (p ∈ keys ∧ ∃ q, pyFloat v = .ok q ∧ f i' = some q)) :
    ∀ (ls : List String) (i r : Inst), scanLines c i ls = .ok r →
      f r = f i ∨ ∃ q ∈ valsOf keys ls, f r = some q := by
  intro ls
  induction ls with
  | nil =>
    intro i r h
    simp only [scanLines] at h
    cases h
    exact Or.inl rfl
  | cons l rest ih =>
    intro i r h
    simp only [scanLines] at h
    split at h
    · cases h
      exact Or.inl rfl
    · rename_i hEnd
      split at h
      · exact absurd h (by simp)
      · rename_i p v hsp
        split at h
        · exact absurd h (by simp)
        · rename_i i' hap2
          have hrec := ih i' r h
          have hstep := hap i (pyStrip p) (pyStrip v) i' hap2
          have hvals : valsOf keys (l :: rest) =
              (if pyStrip p ∈ keys then ((pyFloat (pyStrip v)).toOption.toList) else [])
                ++ valsOf keys rest := by
            rw [valsOf, if_neg hEnd, hsp]
          rcases hrec with hfr | ⟨q, hqmem, hfr⟩
          · rcases hstep with hfi | ⟨hmem, q, hq, hfi⟩
            · exact Or.inl (hfr.trans hfi)
            · refine Or.inr ⟨q, ?_, hfr.trans hfi⟩
              rw [hvals, if_pos hmem, hq]
              simp [Except.toOption]
          · refine Or.inr ⟨q, ?_, hfr⟩
            rw [hvals]
            exact List.mem_append_right _ hqmem

/-- What a SUCCESS return of validate tells: every check passed, the only
mutation is the half-pixel shift of the UL corner, and nothing was logged. -/
theorem validate_success (c : Fields) (mf : String) (i : Inst) (r : Inst) (lg : List String)
    (h : validate c mf i = (SUCCESS, r, lg)) :
    ¬((merge c i).north_bound_lat = -9999 ∨ (merge c i).south_bound_lat = 9999 ∨
      (merge c i).east_bound_lon = -9999 ∨ (merge c i).west_bound_lon = 9999) ∧
    ¬((merge c i).ul_proj_x = -13 ∨ (merge c i).ul_proj_y = -13) ∧
    ¬((merge c i).pixsize = -13) ∧
    ¬((merge c i).path = 0 ∨ (merge c i).row = 0) ∧
    ¬((merge c i).map_proj ≠ "UTM" ∧ (merge c i).map_proj ≠ "PS") ∧
    ¬((merge c i).map_proj = "UTM" ∧ (merge c i).utm_zone = 0) ∧
    ¬((merge c i).map_proj = "PS" ∧ ((merge c i).vert_lon_from_pole = -9999 ∨
        (merge c i).true_scale_lat = -9999 ∨ (merge c i).false_east = -9999 ∨
        (merge c i).false_north = -9999)) ∧
    r = {i with
      ul_proj_x := some (qsub (merge c i).ul_proj_x (qmul (mkRat 1 2) (merge c i).pixsize)),
      ul_proj_y := some (qadd (merge c i).ul_proj_y (qmul (mkRat 1 2) (merge c i).pixsize))} ∧
    lg = [] := by
  simp only [validate] at h
  split_ifs at h with h1 h2 h3 h4 h5 h6 h7 <;>
    first
      | (exfalso
         have hfst := congrArg (fun t => t.1) h
         simp [ERROR, SUCCESS] at hfst
         done)
      | (simp only [Prod.mk.injEq] at h
         exact ⟨h1, h2, h3, h4, h5, h6, h7, h.2.1.symm, h.2.2.symm⟩)

/-- Every failing validate check logs a message that carries the metadata
file name. -/
theorem validate_error_msg (c : Fields) (mf : String) (i : Inst) (st : Int) (r : Inst)
    (lg : List String) (h : validate c mf i = (st, r, lg)) (hst : st ≠ SUCCESS) :
    ∃ msg ∈ lg, ∃ a b, msg = a ++ mf ++ b := by
  simp only [validate] at h
  split_ifs at h <;>
    simp only [Prod.mk.injEq] at h <;>
    first
      | exact absurd h.1.symm hst
      | (obtain ⟨hst2, hr, hlg⟩ := h
         subst hlg
         first
           | exact ⟨_, List.mem_singleton.2 rfl, _, _, rfl⟩
           | exact ⟨_, List.mem_singleton.2 rfl, _, "", (String.append_empty _).symm⟩)

/-- Decomposition of a parseMeta run that returned (did not raise): the scan
succeeded and validate produced the returned triple. -/
theorem parseMeta_ok (c : Fields) (i : Inst) (mf : String) (ls : List String)
    (st : Int) (r : Inst) (lg : List String)
    (h : parseMeta c i mf ls = (.ok st, r, lg)) :
    ∃ rs, scanLines c i ls = .ok rs ∧ validate c mf rs = (st, r, lg) := by
  unfold parseMeta at h
  cases hscan : scanLines c i ls with
  | error e =>
    rw [hscan] at h
    simp at h
  | ok rs =>
    rw [hscan] at h
    rcases hv : validate c mf rs with ⟨st2, r2, lg2⟩
    simp only [hv, Prod.mk.injEq] at h
    obtain ⟨hst, hr, hlg⟩ := h
    injection hst with hst
    rw [hst, hr, hlg] at hv
    exact ⟨rs, rfl, hv⟩

/-! Per-field consequences of `applyParam_fields`, packaged in the shapes
the generic scan lemmas expect. -/

theorem apKeep_north_bound_lat (c : Fields) :
    ∀ i p v i', applyParam c i p v = .ok i' →
      (∀ k ∈ (["CORNER_UL_LAT_PRODUCT", "CORNER_UR_LAT_PRODUCT"] : List String), p ≠ k) → Inst.north_bound_lat i' = Inst.north_bound_lat i := by
  intro i p v i' ha hk
  obtain ⟨hc, -, -, -, -, -, -, -, -, -, -, -, -, -, -⟩ := applyParam_fields c i p v i' ha
  rcases hc with h | ⟨hp, -⟩
  · exact h
  · rcases hp with hp | hp <;> exact absurd hp (hk _ (by simp))

theorem apKeep_south_bound_lat (c : Fields) :
    ∀ i p v i', applyParam c i p v = .ok i' →
      (∀ k ∈ (["CORNER_LL_LAT_PRODUCT", "CORNER_LR_LAT_PRODUCT"] : List String), p ≠ k) → Inst.south_bound_lat i' = Inst.south_bound_lat i := by
  intro i p v i' ha hk
  obtain ⟨-, hc, -, -, -, -, -, -, -, -, -, -, -, -, -⟩ := applyParam_fields c i p v i' ha
  rcases hc with h | ⟨hp, -⟩
  · exact h
  · rcases hp with hp | hp <;> exact absurd hp (hk _ (by simp))

theorem apKeep_east_bound_lon (c : Fields) :
    ∀ i p v i', applyParam c i p v = .ok i' →
      (∀ k ∈ (["CORNER_UR_LON_PRODUCT", "CORNER_LR_LON_PRODUCT"] : List String), p ≠ k) → Inst.east_bound_lon i' = Inst.east_bound_lon i := by
  intro i p v i' ha hk
  obtain ⟨-, -, hc, -, -, -, -, -, -, -, -, -, -, -, -⟩ := applyParam_fields c i p v i' ha
  rcases hc with h | ⟨hp, -⟩
  · exact h
  · rcases hp with hp | hp <;> exact absurd hp (hk _ (by simp))

theorem apKeep_west_bound_lon (c : Fields) :
    ∀ i p v i', applyParam c i p v = .ok i' →
      (∀ k ∈ (["CORNER_UL_LON_PRODUCT", "CORNER_LL_LON_PRODUCT"] : List String), p ≠ k) → Inst.west_bound_lon i' = Inst.west_bound_lon i := by
  intro i p v i' ha hk
  obtain ⟨-, -, -, hc, -, -, -, -, -, -, -, -, -, -, -⟩ := applyParam_fields c i p v i' ha
  rcases hc with h | ⟨hp, -⟩
  · exact h
  · rcases hp with hp | hp <;> exact absurd hp (hk _ (by simp))

theorem apKeep_ul_proj_x (c : Fields) :
    ∀ i p v i', applyParam c i p v = .ok i' →
      (∀ k ∈ (["CORNER_UL_PROJECTION_X_PRODUCT"] : List String), p ≠ k) → Inst.ul_proj_x i' = Inst.ul_proj_x i := by
  intro i p v i' ha hk
  obtain ⟨-, -, -, -, hc, -, -, -, -, -, -, -, -, -, -⟩ := applyParam_fields c i p v i' ha
  rcases hc with h | ⟨hp, -⟩
  · exact h
  · exact absurd hp (hk _ (by simp))

theorem apKeep_ul_proj_y (c : Fields) :
    ∀ i p v i', applyParam c i p v = .ok i' →
      (∀ k ∈ (["CORNER_UL_PROJECTION_Y_PRODUCT"] : List String), p ≠ k) → Inst.ul_proj_y i' = Inst.ul_proj_y i := by
  intro i p v i' ha hk
  obtain ⟨-, -, -, -, -, hc, -, -, -, -, -, -, -, -, -⟩ := applyParam_fields c i p v i' ha
  rcases hc with h | ⟨hp, -⟩
  · exact h
  · exact absurd hp (hk _ (by simp))

theorem apKeep_pixsize (c : Fields) :
    ∀ i p v i', applyParam c i p v = .ok i' →
      (∀ k ∈ (["GRID_CELL_SIZE_REFLECTIVE"] : List String), p ≠ k) → Inst.pixsize i' = Inst.pixsize i := by
  intro i p v i' ha hk
  obtain ⟨-, -, -, -, -, -, hc, -, -, -, -, -, -, -, -⟩ := applyParam_fields c i p v i' ha
  rcases hc with h | ⟨hp, -⟩
  · exact h
  · exact absurd hp (hk _ (by simp))

theorem apKeep_path (c : Fields) :
    ∀ i p v i', applyParam c i p v = .ok i' →
      (∀ k ∈ (["WRS_PATH"] : List String), p ≠ k) → Inst.path i' = Inst.path i := by
  intro i p v i' ha hk
  obtain ⟨-, -, -, -, -, -, -, hc, -, -, -, -, -, -, -⟩ := applyParam_fields c i p v i' ha
  rcases hc with h | ⟨hp, -⟩
  · exact h
  · exact absurd hp (hk _ (by simp))

theorem apKeep_row (c : Fields) :
    ∀ i p v i', applyParam c i p v = .ok i' →
      (∀ k ∈ (["WRS_ROW"] : List String), p ≠ k) → Inst.row i' = Inst.row i := by
  intro i p v i' ha hk
  obtain ⟨-, -, -, -, -, -, -, -, hc, -, -, -, -, -, -⟩ := applyParam_fields c i p v i' ha
  rcases hc with h | ⟨hp, -⟩
  · exact h
  · exact absurd hp (hk _ (by simp))

theorem apKeep_map_proj (c : Fields) :
    ∀ i p v i', applyParam c i p v = .ok i' →
      (∀ k ∈ (["MAP_PROJECTION"] : List String), p ≠ k) → Inst.map_proj i' = Inst.map_proj i := by
  intro i p v i' ha hk
  obtain ⟨-, -, -, -, -, -, -, -, -, hc, -, -, -, -, -⟩ := applyParam_fields c i p v i' ha
  rcases hc with h | ⟨hp, -⟩
  · exact h
  · exact absurd hp (hk _ (by simp))

theorem apKeep_utm_zone (c : Fields) :
    ∀ i p v i', applyParam c i p v = .ok i' →
      (∀ k ∈ (["UTM_ZONE"] : List String), p ≠ k) → Inst.utm_zone i' = Inst.utm_zone i := by
  intro i p v i' ha hk
  obtain ⟨-, -, -, -, -, -, -, -, -, -, hc, -, -, -, -⟩ := applyParam_fields c i p v i' ha
  rcases hc with h | ⟨hp, -⟩
  · exact h
  · exact absurd hp (hk _ (by simp))

theorem apKeep_vert_lon_from_pole (c : Fields) :
    ∀ i p v i', applyParam c i p v = .ok i' →
      (∀ k ∈ (["VERTICAL_LON_FROM_POLE"] : List String), p ≠ k) → Inst.vert_lon_from_pole i' = Inst.vert_lon_from_pole i := by
  intro i p v i' ha hk
  obtain ⟨-, -, -, -, -, -, -, -, -, -, -, hc, -, -, -⟩ := applyParam_fields c i p v i' ha
  rcases hc with h | ⟨hp, -⟩
  · exact h
  · exact absurd hp (hk _ (by simp))

theorem apKeep_true_scale_lat (c : Fields) :
    ∀ i p v i', applyParam c i p v = .ok i' →
      (∀ k ∈ (["TRUE_SCALE_LAT"] : List String), p ≠ k) → Inst.true_scale_lat i' = Inst.true_scale_lat i := by
  intro i p v i' ha hk
  obtain ⟨-, -, -, -, -, -, -, -, -, -, -, -, hc, -, -⟩ := applyParam_fields c i p v i' ha
  rcases hc with h | ⟨hp, -⟩
  · exact h
  · exact absurd hp (hk _ (by simp))

theorem apKeep_false_east (c : Fields) :
    ∀ i p v i', applyParam c i p v = .ok i' →
      (∀ k ∈ (["FALSE_EASTING"] : List String), p ≠ k) → Inst.false_east i' = Inst.false_east i := by
  intro i p v i' ha hk
  obtain ⟨-, -, -, -, -, -, -, -, -, -, -, -, -, hc, -⟩ := applyParam_fields c i p v i' ha
  rcases hc with h | ⟨hp, -⟩
  · exact h
  · exact absurd hp (hk _ (by simp))

theorem apKeep_false_north (c : Fields) :
    ∀ i p v i', applyParam c i p v = .ok i' →
      (∀ k ∈ (["FALSE_NORTHING"] : List String), p ≠ k) → Inst.false_north i' = Inst.false_north i := by
  intro i p v i' ha hk
  obtain ⟨-, -, -, -, -, -, -, -, -, -, -, -, -, -, hc⟩ := applyParam_fields c i p v i' ha
  rcases hc with h | ⟨hp, -⟩
  · exact h
  · exact absurd hp (hk _ (by simp))

theorem apMem_north_bound_lat (c : Fields) :
    ∀ i p v i', applyParam c i p v = .ok i' →
      Inst.north_bound_lat i' = Inst.north_bound_lat i ∨
      (p ∈ (["CORNER_UL_LAT_PRODUCT", "CORNER_UR_LAT_PRODUCT"] : List String) ∧
        ∃ q, pyFloat v = .ok q ∧ Inst.north_bound_lat i' = some q) := by
  intro i p v i' ha
  obtain ⟨hc, -, -, -, -, -, -, -, -, -, -, -, -, -, -⟩ := applyParam_fields c i p v i' ha
  rcases hc with h | ⟨hp, hq⟩
  · exact Or.inl h
  · refine Or.inr ⟨?_, hq⟩
    rcases hp with hp | hp <;> simp [hp]

theorem apMem_south_bound_lat (c : Fields) :
    ∀ i p v i', applyParam c i p v = .ok i' →
      Inst.south_bound_lat i' = Inst.south_bound_lat i ∨
      (p ∈ (["CORNER_LL_LAT_PRODUCT", "CORNER_LR_LAT_PRODUCT"] : List String) ∧
        ∃ q, pyFloat v = .ok q ∧ Inst.south_bound_lat i' = some q) := by
  intro i p v i' ha
  obtain ⟨-, hc, -, -, -, -, -, -, -, -, -, -, -, -, -⟩ := applyParam_fields c i p v i' ha
  rcases hc with h | ⟨hp, hq⟩
  · exact Or.inl h
  · refine Or.inr ⟨?_, hq⟩
    rcases hp with hp | hp <;> simp [hp]

theorem apMem_east_bound_lon (c : Fields) :
    ∀ i p v i', applyParam c i p v = .ok i' →
      Inst.east_bound_lon i' = Inst.east_bound_lon i ∨
      (p ∈ (["CORNER_UR_LON_PRODUCT", "CORNER_LR_LON_PRODUCT"] : List String) ∧
        ∃ q, pyFloat v = .ok q ∧ Inst.east_bound_lon i' = some q) := by
  intro i p v i' ha
  obtain ⟨-, -, hc, -, -, -, -, -, -, -, -, -, -, -, -⟩ := applyParam_fields c i p v i' ha
  rcases hc with h | ⟨hp, hq⟩
  · exact Or.inl h
  · refine Or.inr ⟨?_, hq⟩
    rcases hp with hp | hp <;> simp [hp]

theorem apMem_west_bound_lon (c : Fields) :
    ∀ i p v i', applyParam c i p v = .ok i' →
      Inst.west_bound_lon i' = Inst.west_bound_lon i ∨
      (p ∈ (["CORNER_UL_LON_PRODUCT", "CORNER_LL_LON_PRODUCT"] : List String) ∧
        ∃ q, pyFloat v = .ok q ∧ Inst.west_bound_lon i' = some q) := by
  intro i p v i' ha
  obtain ⟨-, -, -, hc, -, -, -, -, -, -, -, -, -, -, -⟩ := applyParam_fields c i p v i' ha
  rcases hc with h | ⟨hp, hq⟩
  · exact Or.inl h
  · refine Or.inr ⟨?_, hq⟩
    rcases hp with hp | hp <;> simp [hp]

theorem apSet_ul_proj_x (c : Fields) :
    ∀ i v i', applyParam c i "CORNER_UL_PROJECTION_X_PRODUCT" v = .ok i' →
      ∃ q, pyFloat v = .ok q ∧ Inst.ul_proj_x i' = some q := by
  intro i v i' ha
  rw [applyParam_ulx_set] at ha
  cases hv : pyFloat v with
  | error e =>
    rw [hv] at ha
    exact absurd ha (by simp)
  | ok q =>
    rw [hv] at ha
    injection ha with ha
    subst ha
    exact ⟨q, rfl, rfl⟩

theorem apSet_ul_proj_y (c : Fields) :
    ∀ i v i', applyParam c i "CORNER_UL_PROJECTION_Y_PRODUCT" v = .ok i' →
      ∃ q, pyFloat v = .ok q ∧ Inst.ul_proj_y i' = some q := by
  intro i v i' ha
  rw [applyParam_uly_set] at ha
  cases hv : pyFloat v with
  | error e =>
    rw [hv] at ha
    exact absurd ha (by simp)
  | ok q =>
    rw [hv] at ha
    injection ha with ha
    subst ha
    exact ⟨q, rfl, rfl⟩

theorem apSet_pixsize (c : Fields) :
    ∀ i v i', applyParam c i "GRID_CELL_SIZE_REFLECTIVE" v = .ok i' →
      ∃ q, pyFloat v = .ok q ∧ Inst.pixsize i' = some q := by
  intro i v i' ha
  rw [applyParam_pixsize_set] at ha
  cases hv : pyFloat v with
  | error e =>
    rw [hv] at ha
    exact absurd ha (by simp)
  | ok q =>
    rw [hv] at ha
    injection ha with ha
    subst ha
    exact ⟨q, rfl, rfl⟩

/-- No effective line of the file carries any of the given parameter keys. -/
def omitsKeys (ls : List String) (keys : List String) : Prop :=
  ∀ l ∈ ls, ∀ k ∈ keys, paramOf l ≠ some k

instance (ls keys : List String) : Decidable (omitsKeys ls keys) := by
  unfold omitsKeys
  infer_instance

/-- Attribute lookup on a fresh instance yields exactly the class attributes. -/
theorem merge_freshInst (c : Fields) : merge c freshInst = c := rfl

/-- A parseMeta run whose returned status is ok st is determined by its
projections. -/
theorem parseMeta_fst_ok (c : Fields) (i : Inst) (mf : String) (ls : List String) (st : Int)
    (h : (parseMeta c i mf ls).1 = .ok st) :
    parseMeta c i mf ls = (.ok st, (parseMeta c i mf ls).2.1, (parseMeta c i mf ls).2.2) := by
  rcases hpm : parseMeta c i mf ls with ⟨a, b, d⟩
  rw [hpm] at h
  simp only at h ⊢
  rw [h]

/-- Claim C2 (amended): parsing a fresh SceneDEM record from a metadata file
that omits any required field group other than UTM_ZONE (a bounding
coordinate, UL projection x or y, the pixel size, the WRS path or row, the
map projection, or, whenever the resulting record is Polar Stereographic,
any of the four PS parameters) never returns SUCCESS; a missing field is
caught by validation, a raising scan never returns at all.  (UTM_ZONE is
excluded by the counterexample parseMeta_missing_utm_zone_accepted: its
class default 99 passes the nonzero-zone check.) -/
theorem parseMeta_missing_field_rejected (mf : String) (ls : List String) :
    (omitsKeys ls ["CORNER_UL_LAT_PRODUCT", "CORNER_UR_LAT_PRODUCT"] → (parseMeta classAttrs freshInst mf ls).1 ≠ .ok SUCCESS) ∧
    (omitsKeys ls ["CORNER_LL_LAT_PRODUCT", "CORNER_LR_LAT_PRODUCT"] → (parseMeta classAttrs freshInst mf ls).1 ≠ .ok SUCCESS) ∧
    (omitsKeys ls ["CORNER_UR_LON_PRODUCT", "CORNER_LR_LON_PRODUCT"] → (parseMeta classAttrs freshInst mf ls).1 ≠ .ok SUCCESS) ∧
    (omitsKeys ls ["CORNER_UL_LON_PRODUCT", "CORNER_LL_LON_PRODUCT"] → (parseMeta classAttrs freshInst mf ls).1 ≠ .ok SUCCESS) ∧
    (omitsKeys ls ["CORNER_UL_PROJECTION_X_PRODUCT"] → (parseMeta classAttrs freshInst mf ls).1 ≠ .ok SUCCESS) ∧
    (omitsKeys ls ["CORNER_UL_PROJECTION_Y_PRODUCT"] → (parseMeta classAttrs freshInst mf ls).1 ≠ .ok SUCCESS) ∧
    (omitsKeys ls ["GRID_CELL_SIZE_REFLECTIVE"] → (parseMeta classAttrs freshInst mf ls).1 ≠ .ok SUCCESS) ∧
    (omitsKeys ls ["WRS_PATH"] → (parseMeta classAttrs freshInst mf ls).1 ≠ .ok SUCCESS) ∧
    (omitsKeys ls ["WRS_ROW"] → (parseMeta classAttrs freshInst mf ls).1 ≠ .ok SUCCESS) ∧
    (omitsKeys ls ["MAP_PROJECTION"] → (parseMeta classAttrs freshInst mf ls).1 ≠ .ok SUCCESS) ∧
    (omitsKeys ls ["VERTICAL_LON_FROM_POLE"] → ∀ r lg,
      parseMeta classAttrs freshInst mf ls = (.ok SUCCESS, r, lg) →
      (merge classAttrs r).map_proj ≠ "PS") ∧
    (omitsKeys ls ["TRUE_SCALE_LAT"] → ∀ r lg,
      parseMeta classAttrs freshInst mf ls = (.ok SUCCESS, r, lg) →
      (merge classAttrs r).map_proj ≠ "PS") ∧
    (omitsKeys ls ["FALSE_EASTING"] → ∀ r lg,
      parseMeta classAttrs freshInst mf ls = (.ok SUCCESS, r, lg) →
      (merge classAttrs r).map_proj ≠ "PS") ∧
    (omitsKeys ls ["FALSE_NORTHING"] → ∀ r lg,
      parseMeta classAttrs freshInst mf ls = (.ok SUCCESS, r, lg) →
      (merge classAttrs r).map_proj ≠ "PS") := by
  refine ⟨?_, ?_, ?_, ?_, ?_, ?_, ?_, ?_, ?_, ?_, ?_, ?_, ?_, ?_⟩
  · intro hom hsucc
    obtain ⟨rs, hscan, hval⟩ :=
      parseMeta_ok _ _ _ _ _ _ _ (parseMeta_fst_ok _ _ _ _ _ hsucc)
    obtain ⟨hv1, hv2, hv3, hv4, hv5, hv6, hv7, hvr, hvlg⟩ :=
      validate_success _ _ _ _ _ hval
    have hkeep := scanLines_preserve classAttrs Inst.north_bound_lat ["CORNER_UL_LAT_PRODUCT", "CORNER_UR_LAT_PRODUCT"]
      (apKeep_north_bound_lat classAttrs) ls freshInst rs hscan hom
    have hnone : Inst.north_bound_lat rs = none := by
      rw [hkeep]
      rfl
    exact hv1 (Or.inl (by simp [merge, hnone, classAttrs]))
  · intro hom hsucc
    obtain ⟨rs, hscan, hval⟩ :=
      parseMeta_ok _ _ _ _ _ _ _ (parseMeta_fst_ok _ _ _ _ _ hsucc)
    obtain ⟨hv1, hv2, hv3, hv4, hv5, hv6, hv7, hvr, hvlg⟩ :=
      validate_success _ _ _ _ _ hval
    have hkeep := scanLines_preserve classAttrs Inst.south_bound_lat ["CORNER_LL_LAT_PRODUCT", "CORNER_LR_LAT_PRODUCT"]
      (apKeep_south_bound_lat classAttrs) ls freshInst rs hscan hom
    have hnone : Inst.south_bound_lat rs = none := by
      rw [hkeep]
      rfl
    exact hv1 (Or.inr (Or.inl (by simp [merge, hnone, classAttrs])))
  · intro hom hsucc
    obtain ⟨rs, hscan, hval⟩ :=
      parseMeta_ok _ _ _ _ _ _ _ (parseMeta_fst_ok _ _ _ _ _ hsucc)
    obtain ⟨hv1, hv2, hv3, hv4, hv5, hv6, hv7, hvr, hvlg⟩ :=
      validate_success _ _ _ _ _ hval
    have hkeep := scanLines_preserve classAttrs Inst.east_bound_lon ["CORNER_UR_LON_PRODUCT", "CORNER_LR_LON_PRODUCT"]
      (apKeep_east_bound_lon classAttrs) ls freshInst rs hscan hom
    have hnone : Inst.east_bound_lon rs = none := by
      rw [hkeep]
      rfl
    exact hv1 (Or.inr (Or.inr (Or.inl (by simp [merge, hnone, classAttrs]))))
  · intro hom hsucc
    obtain ⟨rs, hscan, hval⟩ :=
      parseMeta_ok _ _ _ _ _ _ _ (parseMeta_fst_ok _ _ _ _ _ hsucc)
    obtain ⟨hv1, hv2, hv3, hv4, hv5, hv6, hv7, hvr, hvlg⟩ :=
      validate_success _ _ _ _ _ hval
    have hkeep := scanLines_preserve classAttrs Inst.west_bound_lon ["CORNER_UL_LON_PRODUCT", "CORNER_LL_LON_PRODUCT"]
      (apKeep_west_bound_lon classAttrs) ls freshInst rs hscan hom
    have hnone : Inst.west_bound_lon rs = none := by
      rw [hkeep]
      rfl
    exact hv1 (Or.inr (Or.inr (Or.inr (by simp [merge, hnone, classAttrs]))))
  · intro hom hsucc
    obtain ⟨rs, hscan, hval⟩ :=
      parseMeta_ok _ _ _ _ _ _ _ (parseMeta_fst_ok _ _ _ _ _ hsucc)
    obtain ⟨hv1, hv2, hv3, hv4, hv5, hv6, hv7, hvr, hvlg⟩ :=
      validate_success _ _ _ _ _ hval
    have hkeep := scanLines_preserve classAttrs Inst.ul_proj_x ["CORNER_UL_PROJECTION_X_PRODUCT"]
      (apKeep_ul_proj_x classAttrs) ls freshInst rs hscan hom
    have hnone : Inst.ul_proj_x rs = none := by
      rw [hkeep]
      rfl
    exact hv2 (Or.inl (by simp [merge, hnone, classAttrs]))
  · intro hom hsucc
    obtain ⟨rs, hscan, hval⟩ :=
      parseMeta_ok _ _ _ _ _ _ _ (parseMeta_fst_ok _ _ _ _ _ hsucc)
    obtain ⟨hv1, hv2, hv3, hv4, hv5, hv6, hv7, hvr, hvlg⟩ :=
      validate_success _ _ _ _ _ hval
    have hkeep := scanLines_preserve classAttrs Inst.ul_proj_y ["CORNER_UL_PROJECTION_Y_PRODUCT"]
      (apKeep_ul_proj_y classAttrs) ls freshInst rs hscan hom
    have hnone : Inst.ul_proj_y rs = none := by
      rw [hkeep]
      rfl
    exact hv2 (Or.inr (by simp [merge, hnone, classAttrs]))
  · intro hom hsucc
    obtain ⟨rs, hscan, hval⟩ :=
      parseMeta_ok _ _ _ _ _ _ _ (parseMeta_fst_ok _ _ _ _ _ hsucc)
    obtain ⟨hv1, hv2, hv3, hv4, hv5, hv6, hv7, hvr, hvlg⟩ :=
      validate_success _ _ _ _ _ hval
    have hkeep := scanLines_preserve classAttrs Inst.pixsize ["GRID_CELL_SIZE_REFLECTIVE"]
      (apKeep_pixsize classAttrs) ls freshInst rs hscan hom
    have hnone : Inst.pixsize rs = none := by
      rw [hkeep]
      rfl
    exact hv3 (by simp [merge, hnone, classAttrs])
  · intro hom hsucc
    obtain ⟨rs, hscan, hval⟩ :=
      parseMeta_ok _ _ _ _ _ _ _ (parseMeta_fst_ok _ _ _ _ _ hsucc)
    obtain ⟨hv1, hv2, hv3, hv4, hv5, hv6, hv7, hvr, hvlg⟩ :=
      validate_success _ _ _ _ _ hval
    have hkeep := scanLines_preserve classAttrs Inst.path ["WRS_PATH"]
      (apKeep_path classAttrs) ls freshInst rs hscan hom
    have hnone : Inst.path rs = none := by
      rw [hkeep]
      rfl
    exact hv4 (Or.inl (by simp [merge, hnone, classAttrs]))
  · intro hom hsucc
    obtain ⟨rs, hscan, hval⟩ :=
      parseMeta_ok _ _ _ _ _ _ _ (parseMeta_fst_ok _ _ _ _ _ hsucc)
    obtain ⟨hv1, hv2, hv3, hv4, hv5, hv6, hv7, hvr, hvlg⟩ :=
      validate_success _ _ _ _ _ hval
    have hkeep := scanLines_preserve classAttrs Inst.row ["WRS_ROW"]
      (apKeep_row classAttrs) ls freshInst rs hscan hom
    have hnone : Inst.row rs = none := by
      rw [hkeep]
      rfl
    exact hv4 (Or.inr (by simp [merge, hnone, classAttrs]))
  · intro hom hsucc
    obtain ⟨rs, hscan, hval⟩ :=
      parseMeta_ok _ _ _ _ _ _ _ (parseMeta_fst_ok _ _ _ _ _ hsucc)
    obtain ⟨hv1, hv2, hv3, hv4, hv5, hv6, hv7, hvr, hvlg⟩ :=
      validate_success _ _ _ _ _ hval
    have hkeep := scanLines_preserve classAttrs Inst.map_proj ["MAP_PROJECTION"]
      (apKeep_map_proj classAttrs) ls freshInst rs hscan hom
    have hnone : Inst.map_proj rs = none := by
      rw [hkeep]
      rfl
    refine hv5 ⟨?_, ?_⟩ <;> simp [merge, hnone, classAttrs]
  · intro hom r lg hpm hps
    obtain ⟨rs, hscan, hval⟩ := parseMeta_ok _ _ _ _ _ _ _ hpm
    obtain ⟨hv1, hv2, hv3, hv4, hv5, hv6, hv7, hvr, hvlg⟩ :=
      validate_success _ _ _ _ _ hval
    have hmapr : (merge classAttrs rs).map_proj = "PS" := by
      rw [hvr] at hps
      simpa [merge] using hps
    have hkeep := scanLines_preserve classAttrs Inst.vert_lon_from_pole ["VERTICAL_LON_FROM_POLE"]
      (apKeep_vert_lon_from_pole classAttrs) ls freshInst rs hscan hom
    have hnone : Inst.vert_lon_from_pole rs = none := by
      rw [hkeep]
      rfl
    exact hv7 ⟨hmapr, Or.inl (by simp [merge, hnone, classAttrs])⟩
  · intro hom r lg hpm hps
    obtain ⟨rs, hscan, hval⟩ := parseMeta_ok _ _ _ _ _ _ _ hpm
    obtain ⟨hv1, hv2, hv3, hv4, hv5, hv6, hv7, hvr, hvlg⟩ :=
      validate_success _ _ _ _ _ hval
    have hmapr : (merge classAttrs rs).map_proj = "PS" := by
      rw [hvr] at hps
      simpa [merge] using hps
    have hkeep := scanLines_preserve classAttrs Inst.true_scale_lat ["TRUE_SCALE_LAT"]
      (apKeep_true_scale_lat classAttrs) ls freshInst rs hscan hom
    have hnone : Inst.true_scale_lat rs = none := by
      rw [hkeep]
      rfl
    exact hv7 ⟨hmapr, Or.inr (Or.inl (by simp [merge, hnone, classAttrs]))⟩
  · intro hom r lg hpm hps
    obtain ⟨rs, hscan, hval⟩ := parseMeta_ok _ _ _ _ _ _ _ hpm
    obtain ⟨hv1, hv2, hv3, hv4, hv5, hv6, hv7, hvr, hvlg⟩ :=
      validate_success _ _ _ _ _ hval
    have hmapr : (merge classAttrs rs).map_proj = "PS" := by
      rw [hvr] at hps
      simpa [merge] using hps
    have hkeep := scanLines_preserve classAttrs Inst.false_east ["FALSE_EASTING"]
      (apKeep_false_east classAttrs) ls freshInst rs hscan hom
    have hnone : Inst.false_east rs = none := by
      rw [hkeep]
      rfl
    exact hv7 ⟨hmapr, Or.inr (Or.inr (Or.inl (by simp [merge, hnone, classAttrs])))⟩
  · intro hom r lg hpm hps
    obtain ⟨rs, hscan, hval⟩ := parseMeta_ok _ _ _ _ _ _ _ hpm
    obtain ⟨hv1, hv2, hv3, hv4, hv5, hv6, hv7, hvr, hvlg⟩ :=
      validate_success _ _ _ _ _ hval
    have hmapr : (merge classAttrs rs).map_proj = "PS" := by
      rw [hvr] at hps
      simpa [merge] using hps
    have hkeep := scanLines_preserve classAttrs Inst.false_north ["FALSE_NORTHING"]
      (apKeep_false_north classAttrs) ls freshInst rs hscan hom
    have hnone : Inst.false_north rs = none := by
      rw [hkeep]
      rfl
    exact hv7 ⟨hmapr, Or.inr (Or.inr (Or.inr (by simp [merge, hnone, classAttrs])))⟩

/-- sampleUTM without its UTM_ZONE line. -/
def sampleUTMNoZone : List String :=
  ["GROUP = L1_METADATA_FILE",
   "CORNER_UL_LAT_PRODUCT = 41.0",
   "CORNER_UL_LON_PRODUCT = -122.0",
   "CORNER_UR_LAT_PRODUCT = 41.0",
   "CORNER_UR_LON_PRODUCT = -120.0",
   "CORNER_LL_LAT_PRODUCT = 40.0",
   "CORNER_LL_LON_PRODUCT = -122.0",
   "CORNER_LR_LAT_PRODUCT = 40.0",
   "CORNER_LR_LON_PRODUCT = -120.0",
   "CORNER_UL_PROJECTION_X_PRODUCT = 500000.0",
   "CORNER_UL_PROJECTION_Y_PRODUCT = 4500000.0",
   "GRID_CELL_SIZE_REFLECTIVE = 30.0",
   "WRS_PATH = 46",
   "WRS_ROW = 28",
   "MAP_PROJECTION = \"UTM\"",
   "END"]

/-- sampleUTM without its WRS_PATH line. -/
def sampleUTMNoPath : List String :=
  ["GROUP = L1_METADATA_FILE",
   "CORNER_UL_LAT_PRODUCT = 41.0",
   "CORNER_UL_LON_PRODUCT = -122.0",
   "CORNER_UR_LAT_PRODUCT = 41.0",
   "CORNER_UR_LON_PRODUCT = -120.0",
   "CORNER_LL_LAT_PRODUCT = 40.0",
   "CORNER_LL_LON_PRODUCT = -122.0",
   "CORNER_LR_LAT_PRODUCT = 40.0",
   "CORNER_LR_LON_PRODUCT = -120.0",
   "CORNER_UL_PROJECTION_X_PRODUCT = 500000.0",
   "CORNER_UL_PROJECTION_Y_PRODUCT = 4500000.0",
   "GRID_CELL_SIZE_REFLECTIVE = 30.0",
   "WRS_ROW = 28",
   "MAP_PROJECTION = \"UTM\"",
   "UTM_ZONE = 10",
   "END"]

/-- Counterexample to claim C2 as stated: a UTM metadata file that omits
UTM_ZONE parses with SUCCESS and a silently-defaulted zone of 99, because
validation only rejects a zone equal to 0 while the class default is 99. -/
theorem parseMeta_missing_utm_zone_accepted :
    omitsKeys sampleUTMNoZone ["UTM_ZONE"] ∧
    (parseMeta classAttrs freshInst "scene_MTL.txt" sampleUTMNoZone).1 = .ok SUCCESS ∧
    (merge classAttrs
      (parseMeta classAttrs freshInst "scene_MTL.txt" sampleUTMNoZone).2.1).map_proj = "UTM" ∧
    (merge classAttrs
      (parseMeta classAttrs freshInst "scene_MTL.txt" sampleUTMNoZone).2.1).utm_zone = 99 := by
  exact ⟨by decide, by decide, by decide, by decide⟩

/-- Witness for parseMeta_missing_field_rejected at a concrete file that
omits WRS_PATH. -/
theorem parseMeta_missing_field_rejected_witness :
    omitsKeys sampleUTMNoPath ["WRS_PATH"] ∧
    (parseMeta classAttrs freshInst "scene_MTL.txt" sampleUTMNoPath).1 ≠ .ok SUCCESS :=
  ⟨by decide,
   (parseMeta_missing_field_rejected "scene_MTL.txt" sampleUTMNoPath).2.2.2.2.2.2.2.1
     (by decide)⟩

/-- Claim C3: for a well-formed metadata input with consistent corner
coordinates (every lower-corner latitude at most every upper-corner
latitude, every left-corner longitude at most every right-corner
longitude) whose UL projection x/y and pixel size were read as qx, qy and
qp, a SUCCESS return of parseMeta on a fresh record yields
north_bound_lat ≥ south_bound_lat, east_bound_lon ≥ west_bound_lon, and UL
projection coordinates equal to (qx - 0.5 * qp, qy + 0.5 * qp): the
half-pixel shift is applied exactly once, after validation. -/
theorem parseMeta_wellformed_bounds_shift (mf : String) (ls : List String) (qx qy qp : ℚ)
    (hx : lastVal "CORNER_UL_PROJECTION_X_PRODUCT" ls = some qx)
    (hy : lastVal "CORNER_UL_PROJECTION_Y_PRODUCT" ls = some qy)
    (hp : lastVal "GRID_CELL_SIZE_REFLECTIVE" ls = some qp)
    (hlat : ∀ a ∈ valsOf ["CORNER_LL_LAT_PRODUCT", "CORNER_LR_LAT_PRODUCT"] ls,
            ∀ b ∈ valsOf ["CORNER_UL_LAT_PRODUCT", "CORNER_UR_LAT_PRODUCT"] ls, a ≤ b)
    (hlon : ∀ a ∈ valsOf ["CORNER_UL_LON_PRODUCT", "CORNER_LL_LON_PRODUCT"] ls,
            ∀ b ∈ valsOf ["CORNER_UR_LON_PRODUCT", "CORNER_LR_LON_PRODUCT"] ls, a ≤ b)
    (r : Inst) (lg : List String)
    (hrun : parseMeta classAttrs freshInst mf ls = (.ok SUCCESS, r, lg)) :
    (merge classAttrs r).south_bound_lat ≤ (merge classAttrs r).north_bound_lat ∧
    (merge classAttrs r).west_bound_lon ≤ (merge classAttrs r).east_bound_lon ∧
    (merge classAttrs r).ul_proj_x = qx - 1 / 2 * qp ∧
    (merge classAttrs r).ul_proj_y = qy + 1 / 2 * qp := by
  obtain ⟨rs, hscan, hval⟩ := parseMeta_ok _ _ _ _ _ _ _ hrun
  obtain ⟨hv1, hv2, hv3, hv4, hv5, hv6, hv7, hvr, hvlg⟩ := validate_success _ _ _ _ _ hval
  have hgx := (scanLines_lastVal classAttrs Inst.ul_proj_x "CORNER_UL_PROJECTION_X_PRODUCT"
      (apSet_ul_proj_x classAttrs)
      (fun i p v i' ha hne => apKeep_ul_proj_x classAttrs i p v i' ha (by simpa using hne))
      ls freshInst rs hscan).1 qx hx
  have hgy := (scanLines_lastVal classAttrs Inst.ul_proj_y "CORNER_UL_PROJECTION_Y_PRODUCT"
      (apSet_ul_proj_y classAttrs)
      (fun i p v i' ha hne => apKeep_ul_proj_y classAttrs i p v i' ha (by simpa using hne))
      ls freshInst rs hscan).1 qy hy
  have hgp := (scanLines_lastVal classAttrs Inst.pixsize "GRID_CELL_SIZE_REFLECTIVE"
      (apSet_pixsize classAttrs)
      (fun i p v i' ha hne => apKeep_pixsize classAttrs i p v i' ha (by simpa using hne))
      ls freshInst rs hscan).1 qp hp
  have hmx : (merge classAttrs rs).ul_proj_x = qx := by
    simp [merge, hgx]
  have hmp : (merge classAttrs rs).pixsize = qp := by
    simp [merge, hgp]
  have hmy : (merge classAttrs rs).ul_proj_y = qy := by
    simp [merge, hgy]
  have hnb := scanLines_memVals classAttrs Inst.north_bound_lat _
    (apMem_north_bound_lat classAttrs) ls freshInst rs hscan
  have hsb := scanLines_memVals classAttrs Inst.south_bound_lat _
    (apMem_south_bound_lat classAttrs) ls freshInst rs hscan
  have heb := scanLines_memVals classAttrs Inst.east_bound_lon _
    (apMem_east_bound_lon classAttrs) ls freshInst rs hscan
  have hwb := scanLines_memVals classAttrs Inst.west_bound_lon _
    (apMem_west_bound_lon classAttrs) ls freshInst rs hscan
  rcases hnb with hno | ⟨b, hbmem, hbeq⟩
  · have hnone : Inst.north_bound_lat rs = none := by
      rw [hno]
      rfl
    exact absurd (Or.inl (by simp [merge, hnone, classAttrs])) hv1
  rcases hsb with hno | ⟨a, hamem, haeq⟩
  · have hnone : Inst.south_bound_lat rs = none := by
      rw [hno]
      rfl
    exact absurd (Or.inr (Or.inl (by simp [merge, hnone, classAttrs]))) hv1
  rcases heb with hno | ⟨d, hdmem, hdeq⟩
  · have hnone : Inst.east_bound_lon rs = none := by
      rw [hno]
      rfl
    exact absurd (Or.inr (Or.inr (Or.inl (by simp [merge, hnone, classAttrs])))) hv1
  rcases hwb with hno | ⟨e, hemem, heeq⟩
  · have hnone : Inst.west_bound_lon rs = none := by
      rw [hno]
      rfl
    exact absurd (Or.inr (Or.inr (Or.inr (by simp [merge, hnone, classAttrs])))) hv1
  refine ⟨?_, ?_, ?_, ?_⟩
  · have h1 : (merge classAttrs r).south_bound_lat = a := by
      rw [hvr]
      simp [merge, haeq]
    have h2 : (merge classAttrs r).north_bound_lat = b := by
      rw [hvr]
      simp [merge, hbeq]
    rw [h1, h2]
    exact hlat a hamem b hbmem
  · have h1 : (merge classAttrs r).west_bound_lon = e := by
      rw [hvr]
      simp [merge, heeq]
    have h2 : (merge classAttrs r).east_bound_lon = d := by
      rw [hvr]
      simp [merge, hdeq]
    rw [h1, h2]
    exact hlon e hemem d hdmem
  · have h1 : (merge classAttrs r).ul_proj_x =
        qsub (merge classAttrs rs).ul_proj_x (qmul (mkRat 1 2) (merge classAttrs rs).pixsize) := by
      rw [hvr]
      simp [merge]
    rw [h1, hmx, hmp, qsub_eq, qmul_eq]
    norm_num [Rat.mkRat_eq_div]
  · have h1 : (merge classAttrs r).ul_proj_y =
        qadd (merge classAttrs rs).ul_proj_y (qmul (mkRat 1 2) (merge classAttrs rs).pixsize) := by
      rw [hvr]
      simp [merge]
    rw [h1, hmy, hmp, qadd_eq, qmul_eq]
    norm_num [Rat.mkRat_eq_div]

/-- Witness for parseMeta_wellformed_bounds_shift at the concrete sampleUTM
file: the raw UL corner (500000, 4500000) with pixel size 30 becomes
(499985, 4500015). -/
theorem parseMeta_wellformed_bounds_shift_witness :
    lastVal "CORNER_UL_PROJECTION_X_PRODUCT" sampleUTM = some 500000 ∧
    (merge classAttrs
        (parseMeta classAttrs freshInst "scene_MTL.txt" sampleUTM).2.1).ul_proj_x
      = 500000 - 1 / 2 * 30 ∧
    (merge classAttrs
        (parseMeta classAttrs freshInst "scene_MTL.txt" sampleUTM).2.1).ul_proj_y
      = 4500000 + 1 / 2 * 30 ∧
    (merge classAttrs
        (parseMeta classAttrs freshInst "scene_MTL.txt" sampleUTM).2.1).south_bound_lat
      ≤ (merge classAttrs
        (parseMeta classAttrs freshInst "scene_MTL.txt" sampleUTM).2.1).north_bound_lat := by
  have h := parseMeta_wellformed_bounds_shift "scene_MTL.txt" sampleUTM 500000 4500000 30
    (by decide) (by decide) (by decide) (by decide) (by decide) _ _
    (parseMeta_fst_ok classAttrs freshInst "scene_MTL.txt" sampleUTM SUCCESS (by decide))
  exact ⟨by decide, h.2.2.1, h.2.2.2, h.1⟩

/-- `t` occurs as a contiguous piece of the string `s`. -/
def hasPart (t s : String) : Prop :=
  ∃ x y, s = x ++ t ++ y

theorem string_eq_of_data {a b : String} (h : a.data = b.data) : a = b := by
  cases a
  cases b
  cases h
  rfl

theorem string_data_append (a b : String) : (a ++ b).data = a.data ++ b.data := by
  cases a
  cases b
  rfl

/-- Claim C5: fixGdalHdr replaces exactly the map-info lines.  A header with
no map-info line passes through byte-identical; a map-info line inside an
otherwise clean prefix is replaced in place, the surrounding lines kept in
order; a UTM record with positive zone produces the single North line with
the zone, otherwise the single South line with the negated zone; a PS
record produces the corrected map-info line plus a projection-info line. -/
theorem fixGdalHdr_rewrite (m : Fields) :
    (∀ lines, (∀ l ∈ lines, isMapInfoLine l = false) → fixHdrLines m lines = lines) ∧
    (∀ pre l post, (∀ x ∈ pre, isMapInfoLine x = false) → isMapInfoLine l = true →
       fixHdrLines m (pre ++ l :: post) = pre ++ (mapInfoRepl m ++ fixHdrLines m post)) ∧
    (m.map_proj = "UTM" → 0 < m.utm_zone →
       mapInfoRepl m = [utmNorthMapInfo m] ∧ hasPart "North" (utmNorthMapInfo m) ∧
       hasPart (toString m.utm_zone) (utmNorthMapInfo m)) ∧
    (m.map_proj = "UTM" → ¬ 0 < m.utm_zone →
       mapInfoRepl m = [utmSouthMapInfo m] ∧ hasPart "South" (utmSouthMapInfo m) ∧
       hasPart (toString (-m.utm_zone)) (utmSouthMapInfo m)) ∧
    (m.map_proj = "PS" →
       mapInfoRepl m = [psMapInfo m, psProjInfo m] ∧
       hasPart "projection info" (psProjInfo m)) := by
  refine ⟨?_, ?_, ?_, ?_, ?_⟩
  · intro lines h
    induction lines with
    | nil => rfl
    | cons l rest ih =>
      rw [fixHdrLines, h l (List.mem_cons_self l rest)]
      simp only [Bool.false_eq_true, if_false]
      rw [ih (fun x hx => h x (List.mem_cons_of_mem l hx))]
      rfl
  · intro pre l post hpre hl
    induction pre with
    | nil =>
      simp only [List.nil_append]
      rw [fixHdrLines, hl]
      simp
    | cons x xs ih =>
      simp only [List.cons_append]
      rw [fixHdrLines, hpre x (List.mem_cons_self x xs)]
      simp only [Bool.false_eq_true, if_false]
      rw [ih (fun z hz => hpre z (List.mem_cons_of_mem x hz))]
      rfl
  · intro hmp hz
    refine ⟨by simp [mapInfoRepl, hmp, hz], ⟨_, _, rfl⟩, ?_⟩
    refine ⟨"map info = \x7bUTM, 1.000, 1.000, " ++ fmt6 m.ul_proj_x ++ ", "
        ++ fmt6 m.ul_proj_y ++ ", " ++ fmt6 m.pixsize ++ ", " ++ fmt6 m.pixsize ++ ", ",
      ", " ++ "North" ++ ", WGS-84, units=Meters\x7d\n", ?_⟩
    simp [utmNorthMapInfo, String.append_assoc]
  · intro hmp hz
    refine ⟨by simp [mapInfoRepl, hmp, hz], ⟨_, _, rfl⟩, ?_⟩
    refine ⟨"map info = \x7bUTM, 1.000, 1.000, " ++ fmt6 m.ul_proj_x ++ ", "
        ++ fmt6 m.ul_proj_y ++ ", " ++ fmt6 m.pixsize ++ ", " ++ fmt6 m.pixsize ++ ", ",
      ", " ++ "South" ++ ", WGS-84, units=Meters\x7d\n", ?_⟩
    simp [utmSouthMapInfo, String.append_assoc]
  · intro hmp
    have hne : m.map_proj ≠ "UTM" := by
      rw [hmp]
      decide
    refine ⟨by simp [mapInfoRepl, hmp, hne], "", ?_, ?_⟩
    · exact " = \x7b" ++ toString ENVI_PS_PROJ ++ ", 6378137.0, 6356752.314245179, "
        ++ fmt6 m.true_scale_lat ++ ", " ++ fmt6 m.vert_lon_from_pole ++ ", "
        ++ fmt6 m.false_east ++ ", " ++ fmt6 m.false_north
        ++ ", WGS-84, Polar Stereographic, units=Meters\x7d\n"
    · apply string_eq_of_data
      simp [psProjInfo, string_data_append, List.append_assoc]

/-- A UTM record in the southern hemisphere used by the concrete witnesses
(zone -10). -/
def mUTMSouth : Fields :=
  {classAttrs with
    map_proj := "UTM"
    utm_zone := -10
    ul_proj_x := 499985
    ul_proj_y := 4500015
    pixsize := 30}

/-- Witness for fixGdalHdr_rewrite: a concrete header whose second line is
the map-info line gets exactly that line replaced by the South line with
zone magnitude 10; other lines survive byte-identical. -/
theorem fixGdalHdr_rewrite_witness :
    isMapInfoLine "map info = \x7bGeographic Lat/Lon, ...\x7d\n" = true ∧
    fixHdrLines mUTMSouth
        ["ENVI\n", "map info = \x7bGeographic Lat/Lon, ...\x7d\n", "samples = 8241\n"]
      = ["ENVI\n"] ++ (mapInfoRepl mUTMSouth ++ ["samples = 8241\n"]) ∧
    mapInfoRepl mUTMSouth = [utmSouthMapInfo mUTMSouth] ∧
    hasPart "South" (utmSouthMapInfo mUTMSouth) ∧
    hasPart (toString (-mUTMSouth.utm_zone)) (utmSouthMapInfo mUTMSouth) ∧
    toString (-mUTMSouth.utm_zone) = "10" := by
  have h := fixGdalHdr_rewrite mUTMSouth
  have h2 := h.2.1 ["ENVI\n"] "map info = \x7bGeographic Lat/Lon, ...\x7d\n" ["samples = 8241\n"]
    (by decide) (by decide)
  have h4 := h.2.2.2.1 (by decide) (by decide)
  have h1 : fixHdrLines mUTMSouth ["samples = 8241\n"] = ["samples = 8241\n"] :=
    h.1 ["samples = 8241\n"] (by decide)
  simp only [List.cons_append, List.nil_append] at h2
  refine ⟨by decide, ?_, h4.1, h4.2.1, h4.2.2, by decide⟩
  rw [h2, h1]
  rfl

/-- Claim C6 (amended): during one fixGdalHdr run the header path never holds
partial content: at every point of the trace it holds the complete old
content, or nothing (during the remove/rename window), or the complete new
content; all partial content lives in the scratch file temp.hdr. -/
theorem fixGdalHdr_no_partial_header (m : Fields) (old : List String) :
    ∀ s ∈ fixGdalHdrTrace m old,
      s.hdr = some old ∨ s.hdr = none ∨ s.hdr = some (fixHdrLines m old) := by
  intro s hs
  simp only [fixGdalHdrTrace, List.mem_append, List.mem_map, List.mem_range,
    List.mem_cons, List.mem_singleton, List.not_mem_nil, or_false] at hs
  rcases hs with (hs | ⟨k, -, hk⟩) | hs | hs
  · rw [hs]
    exact Or.inl rfl
  · rw [← hk]
    exact Or.inl rfl
  · rw [hs]
    exact Or.inr (Or.inl rfl)
  · rw [hs]
    exact Or.inr (Or.inr rfl)

/-- Witness for fixGdalHdr_no_partial_header at a concrete run. -/
theorem fixGdalHdr_no_partial_header_witness :
    (⟨none, some (fixHdrLines mUTMSouth ["map info = x\n"])⟩ : HdrFS)
        ∈ fixGdalHdrTrace mUTMSouth ["map info = x\n"] ∧
    ((⟨none, some (fixHdrLines mUTMSouth ["map info = x\n"])⟩ : HdrFS).hdr = some ["map info = x\n"] ∨
      (⟨none, some (fixHdrLines mUTMSouth ["map info = x\n"])⟩ : HdrFS).hdr = none ∨
      (⟨none, some (fixHdrLines mUTMSouth ["map info = x\n"])⟩ : HdrFS).hdr
        = some (fixHdrLines mUTMSouth ["map info = x\n"])) := by
  refine ⟨by decide, ?_⟩
  exact fixGdalHdr_no_partial_header mUTMSouth ["map info = x\n"] _ (by decide)

/-- Counterexample to claim C6 as stated: the trace contains a state (between
os.remove of the header and os.rename of the scratch file) in which the
header path refers to neither the old nor the new content - the replacement
is remove-then-rename, not an atomic swap. -/
theorem fixGdalHdr_replace_window :
    ∃ s ∈ fixGdalHdrTrace mUTMSouth ["map info = x\n", "samples = 5\n"],
      s.hdr ≠ some ["map info = x\n", "samples = 5\n"] ∧
      s.hdr ≠ some (fixHdrLines mUTMSouth ["map info = x\n", "samples = 5\n"]) := by
  refine ⟨⟨none, some (fixHdrLines mUTMSouth ["map info = x\n", "samples = 5\n"])⟩,
    by decide, by decide, by decide⟩

/-- Claim C9: for a record with map_proj = "PS" the OMF projection section is
exactly the single TARGET_PROJECTION = 6 line; the OMF content does not
depend on the UTM zone or on any of the four PS parameters (so no UTM_ZONE
line and no PS parameter can appear in it); the three ODL files do not
depend on them either; the PS parameters do reach the patched header,
whose replacement for a map-info line is the PS map-info line followed by
the projection-info line carrying all four formatted PS parameters. -/
theorem writeParams_ps_projection (m : Fields) (mf : String) (hps : m.map_proj = "PS") :
    omfProjLines m = ["  TARGET_PROJECTION = 6\n"] ∧
    (∀ z a b d e, omfLines {m with utm_zone := z, vert_lon_from_pole := a, true_scale_lat := b, false_east := d, false_north := e} mf = omfLines m mf) ∧
    (∀ z a b d e,
      retrieveElevationOdl {m with utm_zone := z, vert_lon_from_pole := a, true_scale_lat := b, false_east := d, false_north := e} = retrieveElevationOdl m ∧
      makegeomgridOdl {m with utm_zone := z, vert_lon_from_pole := a, true_scale_lat := b, false_east := d, false_north := e} = makegeomgridOdl m ∧
      geomresampleOdl {m with utm_zone := z, vert_lon_from_pole := a, true_scale_lat := b, false_east := d, false_north := e} = geomresampleOdl m) ∧
    mapInfoRepl m = [psMapInfo m, psProjInfo m] ∧
    hasPart (fmt6 m.true_scale_lat) (psProjInfo m) ∧
    hasPart (fmt6 m.vert_lon_from_pole) (psProjInfo m) ∧
    hasPart (fmt6 m.false_east) (psProjInfo m) ∧
    hasPart (fmt6 m.false_north) (psProjInfo m) := by
  have hne : m.map_proj ≠ "UTM" := by
    rw [hps]
    decide
  refine ⟨by simp [omfProjLines, hps, hne], ?_, ?_, by simp [mapInfoRepl, hps, hne],
    ?_, ?_, ?_, ?_⟩
  · intro z a b d e
    simp [omfLines, omfProjLines, hps, hne]
  · intro z a b d e
    exact ⟨rfl, rfl, rfl⟩
  · refine ⟨"projection info" ++ " = \x7b" ++ toString ENVI_PS_PROJ
        ++ ", 6378137.0, 6356752.314245179, ",
      ", " ++ fmt6 m.vert_lon_from_pole ++ ", " ++ fmt6 m.false_east ++ ", "
        ++ fmt6 m.false_north ++ ", WGS-84, Polar Stereographic, units=Meters\x7d\n", ?_⟩
    apply string_eq_of_data
    simp [psProjInfo, string_data_append, List.append_assoc]
  · refine ⟨"projection info" ++ " = \x7b" ++ toString ENVI_PS_PROJ
        ++ ", 6378137.0, 6356752.314245179, " ++ fmt6 m.true_scale_lat ++ ", ",
      ", " ++ fmt6 m.false_east ++ ", " ++ fmt6 m.false_north
        ++ ", WGS-84, Polar Stereographic, units=Meters\x7d\n", ?_⟩
    apply string_eq_of_data
    simp [psProjInfo, string_data_append, List.append_assoc]
  · refine ⟨"projection info" ++ " = \x7b" ++ toString ENVI_PS_PROJ
        ++ ", 6378137.0, 6356752.314245179, " ++ fmt6 m.true_scale_lat ++ ", "
        ++ fmt6 m.vert_lon_from_pole ++ ", ",
      ", " ++ fmt6 m.false_north ++ ", WGS-84, Polar Stereographic, units=Meters\x7d\n", ?_⟩
    apply string_eq_of_data
    simp [psProjInfo, string_data_append, List.append_assoc]
  · exact ⟨_, _, rfl⟩

/-- A validated Polar Stereographic record used by the concrete witnesses. -/
def mPS : Fields :=
  {classAttrs with
    map_proj := "PS"
    ul_proj_x := -2235965
    ul_proj_y := 2385035
    pixsize := 30
    true_scale_lat := 71
    vert_lon_from_pole := -45
    false_east := 0
    false_north := 0}

/-- Witness for writeParams_ps_projection at the concrete PS record. -/
theorem writeParams_ps_projection_witness :
    mPS.map_proj = "PS" ∧
    omfProjLines mPS = ["  TARGET_PROJECTION = 6\n"] ∧
    omfLines {mPS with utm_zone := 7, vert_lon_from_pole := 1, true_scale_lat := 2, false_east := 3, false_north := 4} "f_MTL.txt" = omfLines mPS "f_MTL.txt" ∧
    hasPart (fmt6 mPS.true_scale_lat) (psProjInfo mPS) :=
  ⟨rfl, (writeParams_ps_projection mPS "f_MTL.txt" rfl).1,
   (writeParams_ps_projection mPS "f_MTL.txt" rfl).2.1 7 1 2 3 4,
   (writeParams_ps_projection mPS "f_MTL.txt" rfl).2.2.2.2.1⟩

/-- The shared mutable state of one Python process holding the SceneDEM
class dictionary and two SceneDEM objects: attribute reads consult the
object dictionary then the class dictionary; attribute writes go to the
object dictionary (this is the embedding of Python setattr on self). -/
structure PyHeap where
  cls : Fields
  obj1 : Inst
  obj2 : Inst

/-- Run parseMeta as a method of the first object: only the first object
dictionary is threaded through the parse; result is ((status, log), heap). -/
def parseOnFirst (st : PyHeap) (mf : String) (ls : List String) :
    (Except PyExc Int × List String) × PyHeap :=
  (((parseMeta st.cls st.obj1 mf ls).1, (parseMeta st.cls st.obj1 mf ls).2.2),
   {st with obj1 := (parseMeta st.cls st.obj1 mf ls).2.1})

/-- Claim C10: every field update of parseMeta lands in the instance
dictionary of the object being parsed, never in the shared class
dictionary: after parsing with the first object, the class attributes and
the second object are unchanged, a fresh instance still reads exactly the
class attributes, and with the pristine class dictionary those reads are
the documented sentinel defaults. -/
theorem parseMeta_instance_isolation (st : PyHeap) (mf : String) (ls : List String) :
    (parseOnFirst st mf ls).2.cls = st.cls ∧
    (parseOnFirst st mf ls).2.obj2 = st.obj2 ∧
    merge (parseOnFirst st mf ls).2.cls freshInst = merge st.cls freshInst ∧
    merge classAttrs freshInst = classAttrs :=
  ⟨rfl, rfl, rfl, rfl⟩

/-- Claim C8 (evidence of the code bug): with no handler open and a file
name whose open fails, open_log_handler raises (the open call is not
guarded), instead of returning the ERROR code its own docstring promises;
ERROR is returned only when no file name is supplied; on the raising path
the handler stays unset so subsequent log calls fall back to stdout. -/
theorem open_log_handler_raises_on_failure :
    open_log_handler (fun _ => false) ⟨none⟩ (some "/espa/logfile.txt") = .error .ioError ∧
    open_log_handler (fun _ => true) ⟨none⟩ (some "/espa/logfile.txt")
      = .ok (SUCCESS, ⟨some "/espa/logfile.txt"⟩) ∧
    open_log_handler (fun _ => false) ⟨none⟩ none = .ok (ERROR, ⟨none⟩) ∧
    logDest ⟨none⟩ "message" = .stdout "message" := by
  exact ⟨by decide, by decide, by decide, by decide⟩

/-- A tool block that ends the run either caught a nonzero exit (returning
ERROR with the working directory restored) or propagates OSError (leaving
the working directory untouched, hence still the metadata directory). -/
theorem runTool_done_cases (mydir cmd args failMsg : String) (outc : ToolOutcome) (w : World)
    (r : Except PyExc Int) (w' : World)
    (h : runTool mydir cmd args failMsg outc w = .done r w') :
    (r = .ok ERROR ∧ w'.cwd = mydir) ∨ (r = .error .osError ∧ w'.cwd = w.cwd) := by
  cases outc with
  | success out =>
    exact absurd h (by simp [runTool])
  | calledProcessError out =>
    simp only [runTool, StepRes.done.injEq] at h
    exact Or.inl ⟨h.1.symm, by rw [← h.2]⟩
  | invocationError =>
    simp only [runTool, StepRes.done.injEq] at h
    exact Or.inr ⟨h.1.symm, by rw [← h.2]⟩

/-- A tool block that continues leaves the working directory unchanged. -/
theorem runTool_cont_cwd (mydir cmd args failMsg : String) (outc : ToolOutcome) (w : World)
    (w' : World) (h : runTool mydir cmd args failMsg outc w = .cont w') : w'.cwd = w.cwd := by
  cases outc with
  | success out =>
    simp only [runTool, StepRes.cont.injEq] at h
    rw [← h]
  | calledProcessError out =>
    exact absurd h (by simp [runTool])
  | invocationError =>
    exact absurd h (by simp [runTool])

/-- Claim C4 (amended): on every exit path of createDEM that returns a value
to the caller (SUCCESS or ERROR, before or after the directory change) the
working directory equals the starting directory again; exit paths that
raise are not covered - the counterexample shows a raising path that
leaves the working directory changed. -/
theorem createDEM_return_restores_cwd (c : Fields) (i0 : Inst) (env : Env) (v : Int) (w : World)
    (h : createDEM c i0 env = (.ok v, w)) : w.cwd = env.startCwd := by
  simp only [createDEM, logW] at h
  split at h
  · exact absurd h (by simp)
  · rename_i pair bin_dir w2 heq
    have hw2 : w2.cwd = env.startCwd := by
      split at heq
      · split at heq
        · exact absurd heq (by simp)
        · simp only [Except.ok.injEq, Prod.mk.injEq] at heq
          rw [← heq.2]
      · simp only [Except.ok.injEq, Prod.mk.injEq] at heq
        rw [← heq.2]
    split at h
    · simp only [Prod.mk.injEq] at h
      rw [← h.2]
      exact hw2
    · split at h
      · simp only [Prod.mk.injEq] at h
        rw [← h.2]
        exact hw2
      · split at h
        · exact absurd h (by simp)
        · rename_i st inst plg hpm
          split at h
          · simp only [Prod.mk.injEq] at h
            rw [← h.2]
          · split at h
            · rename_i r1 w1x hrt
              simp only [Prod.mk.injEq] at h
              rcases runTool_done_cases _ _ _ _ _ _ _ _ hrt with ⟨-, hc⟩ | ⟨he, -⟩
              · rw [← h.2, hc]
              · rw [he] at h
                exact absurd h.1 (by simp)
            · split at h
              · rename_i r1 w1x hrt
                simp only [Prod.mk.injEq] at h
                rcases runTool_done_cases _ _ _ _ _ _ _ _ hrt with ⟨-, hc⟩ | ⟨he, -⟩
                · rw [← h.2, hc]
                · rw [he] at h
                  exact absurd h.1 (by simp)
              · split at h
                · rename_i r1 w1x hrt
                  simp only [Prod.mk.injEq] at h
                  rcases runTool_done_cases _ _ _ _ _ _ _ _ hrt with ⟨-, hc⟩ | ⟨he, -⟩
                  · rw [← h.2, hc]
                  · rw [he] at h
                    exact absurd h.1 (by simp)
                · split at h
                  · rename_i r1 w1x hrt
                    simp only [Prod.mk.injEq] at h
                    rcases runTool_done_cases _ _ _ _ _ _ _ _ hrt with ⟨-, hc⟩ | ⟨he, -⟩
                    · rw [← h.2, hc]
                    · rw [he] at h
                      exact absurd h.1 (by simp)
                  · split at h
                    · exact absurd h (by simp)
                    · simp only [Prod.mk.injEq] at h
                      rw [← h.2]

/-- An environment in which every step of a createDEM run succeeds. -/
def envOk : Env where
  metafile := "/data/scene/L8_MTL.txt"
  base_metafile := "L8_MTL.txt"
  metadir := "/data/scene"
  startCwd := "/home/espa"
  metafileIsFile := true
  metadirWritable := true
  usebin := false
  binEnv := none
  metaLines := sampleUTM
  t_retrieve := .success "elev ok"
  t_makegeomgrid := .success "grid ok"
  t_geomresample := .success "resample ok"
  t_gdal := .success "translate ok"
  gdalHdrOut := some ["ENVI\n", "map info = \x7bGeographic Lat/Lon\x7d\n", "samples = 8241\n"]

/-- envOk except that gdal_translate left no header file behind, so
fixGdalHdr raises while opening it. -/
def envHdrMissing : Env :=
  {envOk with gdalHdrOut := none}

/-- envOk except that makegeomgrid exits nonzero with captured output
"boom". -/
def envBoom : Env :=
  {envOk with t_makegeomgrid := .calledProcessError "boom"}

/-- A createDEM run whose returned status is known is determined by its
projections. -/
theorem createDEM_fst_ok (c : Fields) (i0 : Inst) (env : Env) (st : Int)
    (h : (createDEM c i0 env).1 = .ok st) :
    createDEM c i0 env = (.ok st, (createDEM c i0 env).2) := by
  rcases hpm : createDEM c i0 env with ⟨a, b⟩
  rw [hpm] at h
  simp only at h ⊢
  rw [h]

/-- Counterexample to claim C4 as stated: when the header file is missing,
fixGdalHdr raises (an error raised while patching the header), the
exception escapes createDEM, and the working directory is left at the
metadata directory instead of being restored. -/
theorem createDEM_exception_leaves_cwd :
    (createDEM classAttrs freshInst envHdrMissing).1 = .error .ioError ∧
    (createDEM classAttrs freshInst envHdrMissing).2.cwd = envHdrMissing.metadir ∧
    envHdrMissing.metadir ≠ envHdrMissing.startCwd := by
  exact ⟨by decide, by decide, by decide⟩

/-- Witness for createDEM_return_restores_cwd at the fully successful
concrete run. -/
theorem createDEM_return_restores_cwd_witness :
    (createDEM classAttrs freshInst envOk).1 = .ok SUCCESS ∧
    (createDEM classAttrs freshInst envOk).2.cwd = envOk.startCwd := by
  have h1 : (createDEM classAttrs freshInst envOk).1 = .ok SUCCESS := by decide
  exact ⟨h1, createDEM_return_restores_cwd classAttrs freshInst envOk SUCCESS _
    (createDEM_fst_ok classAttrs freshInst envOk SUCCESS h1)⟩

/-- Claim C1 (amended): in a run that reaches the tool pipeline, a tool that
exits nonzero (CalledProcessError, which the source catches) stops the
pipeline: no later tool is invoked, a fixed per-step failure message is
logged (the captured output of the failing process is not emitted - see
the counterexample), the working directory is restored and ERROR is
returned; an invocation failure (OSError: executable not found or not
permitted) is not caught: the exception propagates and the working
directory is left at the metadata directory. -/
theorem createDEM_tool_failure (c : Fields) (i0 : Inst) (env : Env) (inst : Inst)
    (plg : List String)
    (hbin : env.usebin = false)
    (hf : env.metafileIsFile = true)
    (hwr : env.metadirWritable = true)
    (hp : parseMeta c i0 env.base_metafile env.metaLines = (.ok SUCCESS, inst, plg)) :
    (∀ out, env.t_retrieve = .calledProcessError out →
      (createDEM c i0 env).1 = .ok ERROR ∧
      (createDEM c i0 env).2.cwd = env.startCwd ∧
      (createDEM c i0 env).2.invoked = ["retrieve_elevation"] ∧
      "Error running retrieve_elevation. Processing will terminate."
        ∈ (createDEM c i0 env).2.log) ∧
    (∀ o1 out, env.t_retrieve = .success o1 →
      env.t_makegeomgrid = .calledProcessError out →
      (createDEM c i0 env).1 = .ok ERROR ∧
      (createDEM c i0 env).2.cwd = env.startCwd ∧
      (createDEM c i0 env).2.invoked = ["retrieve_elevation", "makegeomgrid"] ∧
      "Error running makegeomgrid. Processing will terminate."
        ∈ (createDEM c i0 env).2.log) ∧
    (∀ o1 o2 out, env.t_retrieve = .success o1 → env.t_makegeomgrid = .success o2 →
      env.t_geomresample = .calledProcessError out →
      (createDEM c i0 env).1 = .ok ERROR ∧
      (createDEM c i0 env).2.cwd = env.startCwd ∧
      (createDEM c i0 env).2.invoked = ["retrieve_elevation", "makegeomgrid", "geomresample"] ∧
      "Error running geomresample. Processing will terminate."
        ∈ (createDEM c i0 env).2.log) ∧
    (∀ o1 o2 o3 out, env.t_retrieve = .success o1 → env.t_makegeomgrid = .success o2 →
      env.t_geomresample = .success o3 → env.t_gdal = .calledProcessError out →
      (createDEM c i0 env).1 = .ok ERROR ∧
      (createDEM c i0 env).2.cwd = env.startCwd ∧
      (createDEM c i0 env).2.invoked
        = ["retrieve_elevation", "makegeomgrid", "geomresample", "gdal_translate"] ∧
      "Error running gdal_translate, which is expected to be in your PATH. Processing will terminate."
        ∈ (createDEM c i0 env).2.log) ∧
    (env.t_retrieve = .invocationError →
      (createDEM c i0 env).1 = .error .osError ∧
      (createDEM c i0 env).2.cwd = env.metadir) := by
  refine ⟨?_, ?_, ?_, ?_, ?_⟩
  · intro out h1
    simp [createDEM, logW, runTool, hbin, hf, hwr, hp, h1, SUCCESS, ERROR]
  · intro o1 out h1 h2
    simp [createDEM, logW, runTool, hbin, hf, hwr, hp, h1, h2, SUCCESS, ERROR]
  · intro o1 o2 out h1 h2 h3
    simp [createDEM, logW, runTool, hbin, hf, hwr, hp, h1, h2, h3, SUCCESS, ERROR]
  · intro o1 o2 o3 out h1 h2 h3 h4
    simp [createDEM, logW, runTool, hbin, hf, hwr, hp, h1, h2, h3, h4, SUCCESS, ERROR]
  · intro h1
    simp [createDEM, logW, runTool, hbin, hf, hwr, hp, h1, SUCCESS, ERROR]

/-- Counterexample to claim C1 as stated: when makegeomgrid exits nonzero
with captured output "boom", the pipeline does return ERROR, but the
captured output is never emitted to the log - only the fixed failure
message is; and when the first invocation itself raises (executable not
found), nothing is returned at all: the OSError propagates and the working
directory is not restored. -/
theorem createDEM_tool_failure_output_not_logged :
    (createDEM classAttrs freshInst envBoom).1 = .ok ERROR ∧
    "boom" ∉ (createDEM classAttrs freshInst envBoom).2.log ∧
    "Error running makegeomgrid. Processing will terminate."
      ∈ (createDEM classAttrs freshInst envBoom).2.log := by
  exact ⟨by decide, by decide, by decide⟩

/-- Witness for createDEM_tool_failure at the concrete envBoom run: the
second tool fails, the third and fourth are never invoked, the working
directory is restored and ERROR is returned. -/
theorem createDEM_tool_failure_witness :
    (createDEM classAttrs freshInst envBoom).1 = .ok ERROR ∧
    (createDEM classAttrs freshInst envBoom).2.cwd = envBoom.startCwd ∧
    (createDEM classAttrs freshInst envBoom).2.invoked
      = ["retrieve_elevation", "makegeomgrid"] ∧
    "Error running makegeomgrid. Processing will terminate."
      ∈ (createDEM classAttrs freshInst envBoom).2.log :=
  (createDEM_tool_failure classAttrs freshInst envBoom
      (parseMeta classAttrs freshInst envBoom.base_metafile envBoom.metaLines).2.1
      (parseMeta classAttrs freshInst envBoom.base_metafile envBoom.metaLines).2.2
      (by decide) (by decide) (by decide)
      (parseMeta_fst_ok classAttrs freshInst envBoom.base_metafile envBoom.metaLines SUCCESS
        (by decide))).2.1
    "elev ok" "boom" (by decide) (by decide)

/-- Claim C7: a run whose metadata fails validation (parseMeta returns
ERROR) ends with the ERROR result before any parameter file is written and
before any external process is invoked, and among the logged messages is
one of the validation messages naming the offending metadata file. -/
theorem createDEM_validation_failure (c : Fields) (i0 : Inst) (env : Env) (r : Inst)
    (plg : List String)
    (hbin : env.usebin = false)
    (hf : env.metafileIsFile = true)
    (hwr : env.metadirWritable = true)
    (hp : parseMeta c i0 env.base_metafile env.metaLines = (.ok ERROR, r, plg)) :
    (createDEM c i0 env).1 = .ok ERROR ∧
    (createDEM c i0 env).2.written = [] ∧
    (createDEM c i0 env).2.invoked = [] ∧
    ∃ msg ∈ plg, msg ∈ (createDEM c i0 env).2.log ∧
      ∃ a b, msg = a ++ env.base_metafile ++ b := by
  obtain ⟨rs, hscan, hval⟩ := parseMeta_ok _ _ _ _ _ _ _ hp
  obtain ⟨msg, hmem, a, b, hmsg⟩ :=
    validate_error_msg c env.base_metafile rs ERROR r plg hval (by decide)
  refine ⟨?_, ?_, ?_, msg, hmem, ?_, a, b, hmsg⟩
  · simp [createDEM, logW, runTool, hbin, hf, hwr, hp, SUCCESS, ERROR]
  · simp [createDEM, logW, runTool, hbin, hf, hwr, hp, SUCCESS, ERROR]
  · simp [createDEM, logW, runTool, hbin, hf, hwr, hp, SUCCESS, ERROR]
  · simp only [createDEM, logW, runTool]
    simp [hbin, hf, hwr, hp, SUCCESS, ERROR, hmem]

/-- A metadata file that fails validation: WRS_PATH is present but zero. -/
def sampleZeroPath : List String :=
  ["CORNER_UL_LAT_PRODUCT = 41.0",
   "CORNER_UL_LON_PRODUCT = -122.0",
   "CORNER_UR_LAT_PRODUCT = 41.0",
   "CORNER_UR_LON_PRODUCT = -120.0",
   "CORNER_LL_LAT_PRODUCT = 40.0",
   "CORNER_LL_LON_PRODUCT = -122.0",
   "CORNER_LR_LAT_PRODUCT = 40.0",
   "CORNER_LR_LON_PRODUCT = -120.0",
   "CORNER_UL_PROJECTION_X_PRODUCT = 500000.0",
   "CORNER_UL_PROJECTION_Y_PRODUCT = 4500000.0",
   "GRID_CELL_SIZE_REFLECTIVE = 30.0",
   "WRS_PATH = 0",
   "WRS_ROW = 28",
   "MAP_PROJECTION = \"UTM\"",
   "UTM_ZONE = 10",
   "END"]

/-- envOk with a metadata file that fails validation. -/
def envBadMeta : Env :=
  {envOk with metaLines := sampleZeroPath}

/-- Witness for createDEM_validation_failure at the concrete envBadMeta run. -/
theorem createDEM_validation_failure_witness :
    (createDEM classAttrs freshInst envBadMeta).1 = .ok ERROR ∧
    (createDEM classAttrs freshInst envBadMeta).2.written = [] ∧
    (createDEM classAttrs freshInst envBadMeta).2.invoked = [] :=
  ⟨(createDEM_validation_failure classAttrs freshInst envBadMeta
      (parseMeta classAttrs freshInst envBadMeta.base_metafile envBadMeta.metaLines).2.1
      (parseMeta classAttrs freshInst envBadMeta.base_metafile envBadMeta.metaLines).2.2
      (by decide) (by decide) (by decide)
      (parseMeta_fst_ok classAttrs freshInst envBadMeta.base_metafile envBadMeta.metaLines ERROR
        (by decide))).1,
   (createDEM_validation_failure classAttrs freshInst envBadMeta
      (parseMeta classAttrs freshInst envBadMeta.base_metafile envBadMeta.metaLines).2.1
      (parseMeta classAttrs freshInst envBadMeta.base_metafile envBadMeta.metaLines).2.2
      (by decide) (by decide) (by decide)
      (parseMeta_fst_ok classAttrs freshInst envBadMeta.base_metafile envBadMeta.metaLines ERROR
        (by decide))).2.1,
   (createDEM_validation_failure classAttrs freshInst envBadMeta
      (parseMeta classAttrs freshInst envBadMeta.base_metafile envBadMeta.metaLines).2.1
      (parseMeta classAttrs freshInst envBadMeta.base_metafile envBadMeta.metaLines).2.2
      (by decide) (by decide) (by decide)
      (parseMeta_fst_ok classAttrs freshInst envBadMeta.base_metafile envBadMeta.metaLines ERROR
        (by decide))).2.2.1⟩
